import Mathlib

/-!
Verification of the progress-reconciliation engine of koreaderToHardcover.

The development shallowly embeds `HardcoverClient.update_progress`
(src/koreadertohardcover/hardcover_client.py, lines 238-452), the
`SyncEngine.sync_progress` loop (src/koreadertohardcover/engine.py, lines
75-148) and the status classification of `DatabaseManager.import_books`
(src/koreadertohardcover/database.py, lines 149-155 and 182-188).

Modelling conventions:
- Python floats are modelled as exact rationals.
- Python `None` becomes `Option.none`; Python truthiness of optional
  integers (`None` and `0` are falsy) is `oiTruthy`.
- Each remote GraphQL call is answered by a field of `RemoteEnv`; the value
  `Except.error ()` models the call raising an exception inside
  `_execute_query` (HTTP error or GraphQL error).
- `datetime` values are modelled by `Date`; the code only ever formats them
  with `strftime("%Y-%m-%d")`, modelled by `Date.fmt`.
- Python `int(string)` is modelled by `pyParseInt` (signed decimal
  numerals); a parse failure models the `ValueError` that `int` raises.
-/

namespace KoreaderToHardcover

/-- Calendar date standing in for the Python datetime values, of which
`update_progress` only uses `strftime("%Y-%m-%d")` and truthiness. -/
structure Date where
  year : Nat
  month : Nat
  day : Nat
deriving DecidableEq

/-- Zero-padded decimal rendering, as strftime pads the year to four digits
and month and day to two. -/
def padNat (w n : Nat) : String :=
  let s := toString n
  if s.length < w then String.mk (List.replicate (w - s.length) '0') ++ s else s

/-- Python `d.strftime("%Y-%m-%d")`. -/
def Date.fmt (d : Date) : String :=
  padNat 4 d.year ++ "-" ++ padNat 2 d.month ++ "-" ++ padNat 2 d.day

/-- The latest `user_book_reads` row returned by the GetUserBookInfo query
(`order_by: {id: desc}, limit: 1`, lines 281-287). Nullable columns are
options. -/
structure ReadRecord where
  id : Int
  progress_pages : Option Int
  progress_seconds : Option Int
  started_at : Option String
  finished_at : Option String
deriving DecidableEq

/-- The `user_books` row returned by GetUserBookInfo (lines 274-297):
id, status_id, edition_id and the latest read record, if any. -/
structure UserBook where
  id : Int
  status_id : Option Int
  edition_id : Option Int
  latest_read : Option ReadRecord
deriving DecidableEq

/-- Responses of the remote service for the (at most) eight GraphQL calls one
`update_progress` run can make.  `Except.error ()` at a field makes that call
raise.  For the two page queries the outer option is the presence of the
`editions_by_pk` / `books_by_pk` object and the inner option is its nullable
`pages` column. -/
structure RemoteEnv where
  editionPages : Except Unit (Option (Option Int))
  bookPages : Except Unit (Option (Option Int))
  userBookInfo : Except Unit (Option UserBook)
  createUserBook : Except Unit Int
  fetchNewUserBook : Except Unit (Option Int)
  createReadRecord : Except Unit Int
  updateReadRecord : Except Unit Unit
  updateUserBook : Except Unit Unit

/-- A remote environment in which every call succeeds. -/
def okEnv (ep bp : Option (Option Int)) (ub : Option UserBook)
    (newUb : Int) (autoRead : Option Int) (newUbr : Int) : RemoteEnv :=
  ⟨.ok ep, .ok bp, .ok ub, .ok newUb, .ok autoRead, .ok newUbr, .ok (), .ok ()⟩

/-- The mutation documents `update_progress` can send, with the variables it
binds in each. -/
inductive Mutation where
  | createUserBook (book_id status_id : Int) (edition_id : Option Int)
  | createReadRecord (user_book_id : Int)
  | updateReadRecord (read_id : Int) (pages : Option Int) (seconds : Int)
      (started_at : Option String) (finished_at : Option String)
  | updateUserBook (user_book_id status_id : Int) (edition_id : Option Int)
deriving DecidableEq

def isCreateUserBook : Mutation → Bool
  | .createUserBook .. => true
  | _ => false

def isCreateReadRecord : Mutation → Bool
  | .createReadRecord .. => true
  | _ => false

def isUpdateReadRecord : Mutation → Bool
  | .updateReadRecord .. => true
  | _ => false

def isUpdateUserBook : Mutation → Bool
  | .updateUserBook .. => true
  | _ => false

/-- Number of mutations of a given kind in an issued sequence. -/
def countMut (p : Mutation → Bool) (l : List Mutation) : Nat :=
  (l.filter p).length

/-- Python truthiness of an optional integer: `None` and `0` are falsy. -/
def oiTruthy : Option Int → Bool
  | none => false
  | some n => n != 0

lemma oiTruthy_none : oiTruthy none = false := rfl

/-- Python `int()` applied to a real number: truncation toward zero (floor
for non-negative arguments, ceiling for negative ones). -/
def pyTrunc (q : ℚ) : Int := if 0 ≤ q then ⌊q⌋ else ⌈q⌉

/-- Value of a decimal digit character. -/
def digitVal (c : Char) : Option Nat :=
  if '0' ≤ c ∧ c ≤ '9' then some (c.toNat - 48) else none

/-- Characters `int()` strips around a numeral: the characters of code
point below 256 for which Python's `str.isspace` holds (tab through
carriage return, the information separators, space, next-line and no-break
space).  Non-Latin-1 Unicode spaces are outside the model. -/
def isSpaceChar (c : Char) : Bool :=
  [9, 10, 11, 12, 13, 28, 29, 30, 31, 32, 133, 160].contains c.toNat

/-- Decimal digits after the first one, where a single underscore may
appear between two digits (PEP 515 grouping, accepted by `int()`): fails
on a trailing or doubled underscore or any non-digit. -/
def parseRest : List Char → Nat → Option Nat
  | [], acc => some acc
  | ['_'], _ => none
  | '_' :: c :: rest, acc =>
    match digitVal c with
    | none => none
    | some d => parseRest rest (acc * 10 + d)
  | c :: rest, acc =>
    match digitVal c with
    | none => none
    | some d => parseRest rest (acc * 10 + d)

/-- A nonempty digit sequence with underscore grouping: the first
character must be a digit (no leading underscore). -/
def parseNumeral : List Char → Option Nat
  | [] => none
  | c :: rest =>
    match digitVal c with
    | none => none
    | some d => parseRest rest d

/-- Python `int(string)`: surrounding whitespace is stripped, then an
optional sign precedes a nonempty digit sequence with optional single
underscores between digits; anything else raises ValueError (modelled as
`none`).  Digits are the ASCII ones; non-ASCII Unicode decimal digits,
which `int()` also accepts, are outside the model, and statements
concluding a ValueError therefore restrict themselves to ASCII inputs. -/
def pyParseInt (s : String) : Option Int :=
  let cs := ((s.data.dropWhile isSpaceChar).reverse.dropWhile
    isSpaceChar).reverse
  match cs with
  | '-' :: rest => (parseNumeral rest).map (fun n => -(n : Int))
  | '+' :: rest => (parseNumeral rest).map (fun n => (n : Int))
  | rest => (parseNumeral rest).map (fun n => (n : Int))

/-- The exception kinds distinguished by the model: `ValueError` from the
`int()` conversions of non-numeric strings (lines 253-254 of
hardcover_client.py), and `TypeError` from applying `>`, `/` or `int()` to
a NULL database value (engine.py line 123, hardcover_client.py line 253). -/
inductive PyErr where
  | valueError
  | typeError
deriving DecidableEq

/-- Line 252: `status_id = 2 if status == "reading" else 3`. -/
def statusIdOf (status : String) : Int :=
  if status = "reading" then 2 else 3

/-- Line 254: `e_id = int(edition_id) if edition_id else None`.  An empty
string is falsy, a non-numeral string raises ValueError. -/
def parseEdition (edition_id : Option String) : Except PyErr (Option Int) :=
  match edition_id with
  | none => .ok none
  | some s =>
    if s = "" then .ok none
    else
      match pyParseInt s with
      | none => .error .valueError
      | some n => .ok (some n)

/-- Lines 257-271: resolve total pages, preferring the edition (if `e_id` is
truthy) and falling back to the book when the value so far is falsy.  When a
query raises, the exception propagates. -/
def resolveTotalPages (e_id : Option Int) (env : RemoteEnv) :
    Except Unit (Option Int) :=
  let step1 : Except Unit (Option Int) :=
    if oiTruthy e_id then
      match env.editionPages with
      | .error e => .error e
      | .ok none => .ok none
      | .ok (some p) => .ok p
    else .ok none
  match step1 with
  | .error e => .error e
  | .ok tp1 =>
    if oiTruthy tp1 then .ok tp1
    else
      match env.bookPages with
      | .error e => .error e
      | .ok none => .ok tp1
      | .ok (some p) => .ok p

/-- Lines 299-302: `target_page = 0`, overwritten by
`int(total_pages * percentage / 100)` when `total_pages` is truthy and
positive. -/
def targetPage (total_pages : Option Int) (percentage : ℚ) : Int :=
  match total_pages with
  | some tp => if 0 < tp then pyTrunc ((tp : ℚ) * percentage / 100) else 0
  | none => 0

/-- The drift comparator, lines 319-349: skip when not forced, a user-book
exists with matching status (and matching edition when `e_id` is set), and
the latest read record matches pages within 1, seconds within 59 and the
start/finish date strings exactly.  `time_match` requires `progress_seconds`
to be present (line 330) before the `or 0` fallback is consulted. -/
def shouldSkip (force : Bool) (status : String) (status_id : Int)
    (e_id : Option Int) (seconds : Int) (last_read_date start_date : Option Date)
    (target_page : Int) (user_book : Option UserBook) : Bool :=
  match user_book with
  | none => false
  | some ub =>
    let current_page := ub.latest_read.bind (fun r => r.progress_pages)
    let current_seconds := ub.latest_read.bind (fun r => r.progress_seconds)
    let current_start := ub.latest_read.bind (fun r => r.started_at)
    let current_finish := ub.latest_read.bind (fun r => r.finished_at)
    if !force ∧ ub.status_id = some status_id ∧
        (e_id = none ∨ ub.edition_id = e_id) then
      let page_match := current_page.isSome ∧ |current_page.getD 0 - target_page| < 2
      let time_match := current_seconds.isSome ∧ |current_seconds.getD 0 - seconds| < 60
      let target_start := start_date.map Date.fmt
      let target_finish :=
        if status = "finished" then last_read_date.map Date.fmt else none
      let start_match := current_start = target_start
      let finish_match :=
        if status = "finished" then current_finish = target_finish else True
      decide (page_match ∧ time_match ∧ start_match ∧ finish_match)
    else false

/-- Lines 390-449: create the read record when no usable read record id
was found — line 391 is `if not ubr_id:`, Python truthiness, so an id of 0
counts as missing just like None — then send UpdateReadRecord, and send
UpdateUserBook when the (possibly reassigned) current status or edition
differs.  `acc` carries the mutations already executed; an `Except.error`
result models an exception escaping to the handler on line 450 after
executing those mutations. -/
def finishMutations (e_id : Option Int) (status_id : Int)
    (total_pages : Option Int) (target_page : Int) (status : String)
    (seconds : Int) (last_read_date start_date : Option Date)
    (ub_id : Int) (ubr0 : Option Int) (current_status current_edition
    current_page : Option Int) (current_start : Option String)
    (acc : List Mutation) (env : RemoteEnv) :
    Except (List Mutation) (Bool × List Mutation) :=
  let step : Except (List Mutation) (Int × List Mutation) :=
    if oiTruthy ubr0 then .ok (ubr0.getD 0, acc)
    else
      match env.createReadRecord with
      | .error _ => .error acc
      | .ok r => .ok (r, acc ++ [Mutation.createReadRecord ub_id])
  match step with
  | .error m => .error m
  | .ok (ubr_id, acc1) =>
    let finished_at_str :=
      if status = "finished" then last_read_date.map Date.fmt else none
    let started_at_str :=
      match start_date with
      | some d => some d.fmt
      | none => current_start
    let pages_payload :=
      if oiTruthy total_pages then some target_page else current_page
    match env.updateReadRecord with
    | .error _ => .error acc1
    | .ok _ =>
      let acc2 := acc1 ++
        [Mutation.updateReadRecord ubr_id pages_payload seconds started_at_str
          finished_at_str]
      if current_status ≠ some status_id ∨ current_edition ≠ e_id then
        match env.updateUserBook with
        | .error _ => .error acc2
        | .ok _ => .ok (true, acc2 ++ [Mutation.updateUserBook ub_id status_id e_id])
      else .ok (true, acc2)

/-- Lines 351-388: when no user-book exists, CreateUserBook, then fetch the
fresh user-book to look for an auto-created read record, and reassign the
current status/edition to the values just created (lines 383-384); otherwise
reuse the existing user-book and its latest read id. -/
def runMutations (b_id : Int) (e_id : Option Int) (status_id : Int)
    (total_pages : Option Int) (target_page : Int) (status : String)
    (seconds : Int) (last_read_date start_date : Option Date)
    (user_book : Option UserBook) (env : RemoteEnv) :
    Except (List Mutation) (Bool × List Mutation) :=
  let current_page := user_book.bind (fun ub => ub.latest_read.bind (fun r => r.progress_pages))
  let current_start := user_book.bind (fun ub => ub.latest_read.bind (fun r => r.started_at))
  match user_book with
  | none =>
    match env.createUserBook with
    | .error _ => .error []
    | .ok ub_id =>
      match env.fetchNewUserBook with
      | .error _ => .error [Mutation.createUserBook b_id status_id e_id]
      | .ok autoRead =>
        finishMutations e_id status_id total_pages target_page status seconds
          last_read_date start_date ub_id autoRead (some status_id) e_id
          current_page current_start [Mutation.createUserBook b_id status_id e_id] env
  | some ub =>
    finishMutations e_id status_id total_pages target_page status seconds
      last_read_date start_date ub.id (ub.latest_read.map (fun r => r.id))
      ub.status_id ub.edition_id current_page current_start [] env

/-- The body of the `try` block, lines 256-449: resolve pages, fetch the
user-book, short-circuit via the drift comparator, otherwise run the
mutation cascade. -/
def updateBody (b_id : Int) (e_id : Option Int) (status_id : Int)
    (percentage : ℚ) (status : String) (seconds : Int)
    (last_read_date start_date : Option Date) (force : Bool)
    (env : RemoteEnv) : Except (List Mutation) (Bool × List Mutation) :=
  match resolveTotalPages e_id env with
  | .error _ => .error []
  | .ok total_pages =>
    match env.userBookInfo with
    | .error _ => .error []
    | .ok user_book =>
      let target_page := targetPage total_pages percentage
      if shouldSkip force status status_id e_id seconds last_read_date
          start_date target_page user_book then
        .ok (true, [])
      else
        runMutations b_id e_id status_id total_pages target_page status
          seconds last_read_date start_date user_book env

/-- `HardcoverClient.update_progress` (lines 238-452).  The integer
conversions on lines 253-254 happen before the `try`, so their ValueError
propagates; any exception inside the body is caught on line 450 and turned
into `False`.  The result carries the returned boolean together with the
sequence of mutations whose calls completed. -/
def update_progress (book_id : String) (percentage : ℚ) (status : String)
    (seconds : Int) (last_read_date start_date : Option Date) (force : Bool)
    (edition_id : Option String) (env : RemoteEnv) :
    Except PyErr (Bool × List Mutation) :=
  let status_id := statusIdOf status
  match pyParseInt book_id with
  | none => .error .valueError
  | some b_id =>
    match parseEdition edition_id with
    | .error e => .error e
    | .ok e_id =>
      match updateBody b_id e_id status_id percentage status seconds
          last_read_date start_date force env with
      | .ok r => .ok r
      | .error muts => .ok (false, muts)

/-- One row of the SELECT in `SyncEngine.sync_progress` (engine.py lines
95-107): local book id (the primary key of `books`), title, pages read and
total, status, reading time, last-open date, the mapped hardcover and
edition ids, and the earliest session date. -/
structure BookRow where
  b_id : String
  title : String
  read_pg : Option Int
  total_pg : Option Int
  status : String
  read_time : Int
  last_open : Option Date
  hc_id : Option String
  edition_id : Option String
  start_date : Option Date

/-- engine.py line 123 on non-NULL columns:
`(read_pg / total_pg * 100) if total_pg > 0 else 0`. -/
def enginePercentage (read_pg total_pg : Int) : ℚ :=
  if 0 < total_pg then (read_pg : ℚ) / (total_pg : ℚ) * 100 else 0

/-- engine.py line 123 over the nullable columns of the `books` table: a
NULL `total_pages` raises TypeError at the comparison `total_pg > 0`, and a
NULL `total_read_pages` with positive total raises TypeError at the
division; `total_pg <= 0` short-circuits to 0 without touching
`read_pg`. -/
def rowPercentage (read_pg total_pg : Option Int) : Except Unit ℚ :=
  match total_pg with
  | none => .error ()
  | some t =>
    if 0 < t then
      match read_pg with
      | none => .error ()
      | some r => .ok (enginePercentage r t)
    else .ok 0

/-- The loop body for one row: the percentage expression (engine.py line
123, a TypeError on NULL page columns), then the `update_progress` call
(lines 126-135), whose `int(book_id)` raises TypeError when the mapped
hardcover id is NULL (hardcover_client.py line 253). -/
def rowUpdate (force : Bool) (envOf : BookRow → RemoteEnv) (row : BookRow) :
    Except PyErr (Bool × List Mutation) :=
  match rowPercentage row.read_pg row.total_pg with
  | .error _ => .error .typeError
  | .ok pct =>
    match row.hc_id with
    | none => .error .typeError
    | some hid =>
      update_progress hid pct row.status row.read_time row.last_open
        row.start_date force row.edition_id (envOf row)

/-- The loop of `SyncEngine.sync_progress` (engine.py lines 110-148).  On
success the row is marked `synced` (lines 137-143) and the outcome appended;
an exception escaping `update_progress` is caught by the `try` wrapped
around the whole loop (line 145), abandoning this and all later rows.
Returns the (title, success) outcomes together with the ids of the rows set
to `sync_status = 'synced'`. -/
def sync_progress (force : Bool) (envOf : BookRow → RemoteEnv) :
    List BookRow → List (String × Bool) × List String
  | [] => ([], [])
  | row :: rest =>
    match rowUpdate force envOf row with
    | .error _ => ([], [])
    | .ok (success, _) =>
      let r := sync_progress force envOf rest
      ((row.title, success) :: r.1, (if success then [row.b_id] else []) ++ r.2)

/-- The status CASE expression of `DatabaseManager.import_books`
(database.py lines 149-155 and, identically, 182-188): `finished` when
`pages > 0` and the read fraction is at least 0.98 or at most 15 pages
remain, otherwise `reading`. -/
def importStatus (pages total_read_pages : Int) : String :=
  if 0 < pages ∧ ((total_read_pages : ℚ) / (pages : ℚ) ≥ 98 / 100 ∨
      pages - total_read_pages ≤ 15) then "finished"
  else "reading"

/-- How a later GetUserBookInfo snapshot reflects one executed mutation:
CreateUserBook yields a fresh user-book with the created status and edition
and no read record, CreateReadRecord attaches an empty read record
(`user_book_read: {}`), UpdateReadRecord overwrites the read record fields
with the payload, and UpdateUserBook overwrites status and edition.  Ids of
freshly created entities are irrelevant to the comparator and set to 0. -/
def applyMutation (s : Option UserBook) : Mutation → Option UserBook
  | Mutation.createUserBook _ sid eid =>
    some ⟨0, some sid, eid, none⟩
  | Mutation.createReadRecord _ =>
    match s with
    | some ub => some { ub with latest_read := some ⟨0, none, none, none, none⟩ }
    | none => none
  | Mutation.updateReadRecord i pg sec st fin =>
    match s with
    | some ub => some { ub with latest_read := some ⟨i, pg, some sec, st, fin⟩ }
    | none => none
  | Mutation.updateUserBook _ sid eid =>
    match s with
    | some ub => some { ub with status_id := some sid, edition_id := eid }
    | none => none

/-- The remote user-book graph after a sequence of executed mutations. -/
def applyMutations (s : Option UserBook) (ms : List Mutation) : Option UserBook :=
  ms.foldl applyMutation s

/-- The mutations executed by a body run, whether it completed or raised. -/
def mutsOf : Except (List Mutation) (Bool × List Mutation) → List Mutation
  | .ok r => r.2
  | .error m => m

/-- Closed form of `resolveTotalPages` when no call raises; proved equal on
`okEnv` environments in `resolveTotalPages_okEnv`. -/
def resolvedPages (e_id : Option Int) (ep bp : Option (Option Int)) : Option Int :=
  let tp1 := if oiTruthy e_id then ep.join else none
  if oiTruthy tp1 then tp1 else bp.getD tp1

lemma resolveTotalPages_okEnv (e_id : Option Int) (ep bp : Option (Option Int))
    (ub : Option UserBook) (nub : Int) (ar : Option Int) (nubr : Int) :
    resolveTotalPages e_id (okEnv ep bp ub nub ar nubr) =
      .ok (resolvedPages e_id ep bp) := by
  unfold resolveTotalPages resolvedPages okEnv
  cases hoe : oiTruthy e_id
  · cases bp <;> simp [hoe, oiTruthy]
  · cases ep <;> cases bp <;> simp [hoe, Option.join, oiTruthy] <;> split <;>
      simp_all [oiTruthy]

lemma update_progress_eq_of_parsed (book_id : String) (pct : ℚ) (status : String)
    (seconds : Int) (lrd sd : Option Date) (force : Bool)
    (edition_id : Option String) (env : RemoteEnv) (b_id : Int) (e_id : Option Int)
    (hb : pyParseInt book_id = some b_id) (he : parseEdition edition_id = .ok e_id) :
    update_progress book_id pct status seconds lrd sd force edition_id env =
      (match updateBody b_id e_id (statusIdOf status) pct status seconds lrd sd
          force env with
       | .ok r => .ok r
       | .error muts => .ok (false, muts)) := by
  simp [update_progress, hb, he]

lemma update_progress_isOk_of_parsed (book_id : String) (pct : ℚ) (status : String)
    (seconds : Int) (lrd sd : Option Date) (force : Bool)
    (edition_id : Option String) (env : RemoteEnv) (b_id : Int) (e_id : Option Int)
    (hb : pyParseInt book_id = some b_id) (he : parseEdition edition_id = .ok e_id) :
    ∃ r, update_progress book_id pct status seconds lrd sd force edition_id env =
      .ok r := by
  rw [update_progress_eq_of_parsed book_id pct status seconds lrd sd force
    edition_id env b_id e_id hb he]
  cases updateBody b_id e_id (statusIdOf status) pct status seconds lrd sd force env
  · exact ⟨_, rfl⟩
  · exact ⟨_, rfl⟩

lemma update_progress_muts (book_id : String) (pct : ℚ) (status : String)
    (seconds : Int) (lrd sd : Option Date) (force : Bool)
    (edition_id : Option String) (env : RemoteEnv) (b_id : Int) (e_id : Option Int)
    (b : Bool) (muts : List Mutation)
    (hb : pyParseInt book_id = some b_id) (he : parseEdition edition_id = .ok e_id)
    (h : update_progress book_id pct status seconds lrd sd force edition_id env =
      .ok (b, muts)) :
    muts = mutsOf (updateBody b_id e_id (statusIdOf status) pct status seconds
      lrd sd force env) := by
  rw [update_progress_eq_of_parsed book_id pct status seconds lrd sd force
    edition_id env b_id e_id hb he] at h
  cases hbody : updateBody b_id e_id (statusIdOf status) pct status seconds lrd
      sd force env <;> rw [hbody] at h <;>
    simp_all [mutsOf]

lemma finishMutations_ok_true (e_id : Option Int) (sid : Int)
    (tp : Option Int) (tgt : Int) (status : String) (sec : Int)
    (lrd sd : Option Date) (ub_id : Int) (ubr0 : Option Int)
    (cs ce cp : Option Int) (cst : Option String) (acc : List Mutation)
    (env : RemoteEnv) (b : Bool) (m : List Mutation)
    (h : finishMutations e_id sid tp tgt status sec lrd sd ub_id ubr0 cs ce
      cp cst acc env = .ok (b, m)) : b = true := by
  obtain ⟨f1, f2, f3, f4, f5, f6, f7, f8⟩ := env
  by_cases hu : oiTruthy ubr0 = true <;> cases f6 <;> cases f7 <;> cases f8 <;>
    by_cases hc : cs ≠ some sid ∨ ce ≠ e_id <;>
    simp_all [finishMutations]

lemma runMutations_ok_true (b_id : Int) (e_id : Option Int) (sid : Int)
    (tp : Option Int) (tgt : Int) (status : String) (sec : Int)
    (lrd sd : Option Date) (ub : Option UserBook) (env : RemoteEnv)
    (b : Bool) (m : List Mutation)
    (h : runMutations b_id e_id sid tp tgt status sec lrd sd ub env =
      .ok (b, m)) : b = true := by
  unfold runMutations at h
  cases ub with
  | none =>
    cases h1 : env.createUserBook with
    | error e => rw [h1] at h; simp at h
    | ok ubid =>
      rw [h1] at h
      cases h2 : env.fetchNewUserBook with
      | error e => rw [h2] at h; simp at h
      | ok ar =>
        rw [h2] at h
        exact finishMutations_ok_true _ _ _ _ _ _ _ _ _ _ _ _ _ _ _ _ _ _ h
  | some u =>
    exact finishMutations_ok_true _ _ _ _ _ _ _ _ _ _ _ _ _ _ _ _ _ _ h

lemma updateBody_ok_true (b_id : Int) (e_id : Option Int) (sid : Int)
    (pct : ℚ) (status : String) (sec : Int) (lrd sd : Option Date)
    (force : Bool) (env : RemoteEnv) (b : Bool) (m : List Mutation)
    (h : updateBody b_id e_id sid pct status sec lrd sd force env =
      .ok (b, m)) : b = true := by
  unfold updateBody at h
  cases h1 : resolveTotalPages e_id env with
  | error e => rw [h1] at h; simp at h
  | ok tp =>
    rw [h1] at h
    cases h2 : env.userBookInfo with
    | error e => rw [h2] at h; simp at h
    | ok ub =>
      rw [h2] at h
      dsimp only at h
      by_cases hskip : shouldSkip force status sid e_id sec lrd sd
          (targetPage tp pct) ub = true
      · rw [if_pos hskip] at h
        simp only [Except.ok.injEq, Prod.mk.injEq] at h
        exact h.1.symm
      · rw [if_neg hskip] at h
        exact runMutations_ok_true b_id e_id sid tp (targetPage tp pct)
          status sec lrd sd ub env b m h

/-- C6: for `total_pages <= 0` the engine computes percentage 0 and the
client computes target page 0 — both guards bypass the quotient, so no
division by zero can occur — and for positive total pages the target page
is the integer truncation of `total_pages * percentage / 100`; truncation,
not rounding, as total pages 3 at 50 percent shows (truncation gives 1,
rounding would give 2). -/
theorem C6_page_computation :
    (∀ read_pg total_pg : Int, total_pg ≤ 0 →
      enginePercentage read_pg total_pg = 0) ∧
    (∀ (tp : Int) (pct : ℚ), tp ≤ 0 → targetPage (some tp) pct = 0) ∧
    (∀ pct : ℚ, targetPage none pct = 0) ∧
    (∀ (tp : Int) (pct : ℚ), 0 < tp →
      targetPage (some tp) pct = pyTrunc ((tp : ℚ) * pct / 100)) ∧
    targetPage (some 3) 50 = 1 ∧ round ((3 : ℚ) * 50 / 100) = 2 := by
  refine ⟨?_, ?_, ?_, ?_, ?_, ?_⟩
  · intro r t h
    rw [enginePercentage, if_neg (by omega)]
  · intro tp pct h
    simp only [targetPage]
    rw [if_neg (by omega)]
  · intro pct
    simp [targetPage]
  · intro tp pct h
    simp [targetPage, h]
  · rw [show targetPage (some 3) 50 = pyTrunc ((3 : ℚ) * 50 / 100) by
      simp [targetPage]]
    rw [pyTrunc, show ((3 : ℚ) * 50 / 100) = 3 / 2 by norm_num]
    norm_num
  · rw [round_eq, show ((3 : ℚ) * 50 / 100) = 3 / 2 by norm_num]
    norm_num

/-- Witness for C6 at concrete inputs. -/
theorem C6_page_computation_witness :
    enginePercentage 5 0 = 0 ∧ targetPage (some 0) 50 = 0 ∧
      targetPage (some 3) 50 = 1 :=
  ⟨C6_page_computation.1 5 0 (by norm_num),
   C6_page_computation.2.1 0 50 (by norm_num),
   C6_page_computation.2.2.2.2.1⟩

/-- C9 amended: import_books classifies a book as finished exactly when its
recorded page count is positive and the read fraction is at least 0.98 or
at most 15 pages remain; a book whose recorded page count is zero or
negative is always classified reading, the remaining-pages rule
notwithstanding. -/
theorem C9_import_status (pages total_read_pages : Int) :
    importStatus pages total_read_pages = "finished" ↔
      (0 < pages ∧ ((total_read_pages : ℚ) / (pages : ℚ) ≥ 98 / 100 ∨
        pages - total_read_pages ≤ 15)) := by
  unfold importStatus
  split_ifs with h
  · exact ⟨fun _ => h, fun _ => rfl⟩
  · constructor
    · intro hc
      exact absurd hc (by decide)
    · intro hh
      exact absurd hh h

/-- Witness for C9 at a concrete input: 98 of 100 pages read is finished. -/
theorem C9_import_status_witness :
    importStatus 100 98 = "finished" :=
  (C9_import_status 100 98).mpr ⟨by norm_num, Or.inr (by norm_num)⟩

/-- C9 counterexample: a book with recorded page count 0 satisfies the
claim's classification condition (0 unread pages remain, 0 ≤ 15), yet
import_books sets its status to reading, not finished. -/
theorem C9_counterexample :
    importStatus 0 0 = "reading" ∧ (0 : Int) - 0 ≤ 15 ∧
      importStatus 0 0 ≠ "finished" := by
  refine ⟨?_, by norm_num, ?_⟩
  · simp [importStatus]
  · simp [importStatus]

/-- C10: the `int()` conversions of book_id and edition_id (lines 253-254)
run before the `try`, so a non-numeric id — the model covers ASCII strings;
`int()` also accepts non-ASCII Unicode digits — raises ValueError to the
caller instead of returning False; once both conversions succeed, the rest
of the body sits inside the handler of line 450, so the call always returns
a boolean, and it returns False exactly when the body raised, carrying
whatever mutations had completed — for instance the very first remote query
raising produces the return value False with no mutations issued. -/
theorem C10_conversions_and_catch :
    (∀ (book_id : String) (pct : ℚ) (status : String) (seconds : Int)
      (lrd sd : Option Date) (force : Bool) (edition_id : Option String)
      (env : RemoteEnv),
      (((∀ c ∈ book_id.data, c.toNat < 128) ∧ pyParseInt book_id = none) ∨
        (∃ s, edition_id = some s ∧ s ≠ "" ∧ (∀ c ∈ s.data, c.toNat < 128) ∧
          pyParseInt s = none)) →
      update_progress book_id pct status seconds lrd sd force edition_id env =
        .error .valueError) ∧
    (∀ (book_id : String) (pct : ℚ) (status : String) (seconds : Int)
      (lrd sd : Option Date) (force : Bool) (edition_id : Option String)
      (env : RemoteEnv) (b_id : Int) (e_id : Option Int),
      pyParseInt book_id = some b_id → parseEdition edition_id = .ok e_id →
      ∃ r, update_progress book_id pct status seconds lrd sd force edition_id
        env = .ok r) ∧
    (∀ (book_id : String) (pct : ℚ) (status : String) (seconds : Int)
      (lrd sd : Option Date) (force : Bool) (edition_id : Option String)
      (env : RemoteEnv) (b_id : Int) (e_id : Option Int)
      (muts : List Mutation),
      pyParseInt book_id = some b_id → parseEdition edition_id = .ok e_id →
      (updateBody b_id e_id (statusIdOf status) pct status seconds lrd sd
          force env = .error muts ↔
        update_progress book_id pct status seconds lrd sd force edition_id
          env = .ok (false, muts))) ∧
    (∀ (book_id : String) (pct : ℚ) (status : String) (seconds : Int)
      (lrd sd : Option Date) (force : Bool) (edition_id : Option String)
      (env : RemoteEnv) (b_id : Int) (e_id : Option Int),
      pyParseInt book_id = some b_id → parseEdition edition_id = .ok e_id →
      (if oiTruthy e_id then env.editionPages = .error ()
        else env.bookPages = .error ()) →
      update_progress book_id pct status seconds lrd sd force edition_id env =
        .ok (false, [])) := by
  refine ⟨?_, ?_, ?_, ?_⟩
  · intro book_id pct status seconds lrd sd force edition_id env h
    rcases h with ⟨_, hb⟩ | ⟨s, hs, hne, _, hp⟩
    · simp [update_progress, hb]
    · cases hbk : pyParseInt book_id with
      | none => simp [update_progress, hbk]
      | some b => simp [update_progress, hbk, parseEdition, hs, hne, hp]
  · intro book_id pct status seconds lrd sd force edition_id env b_id e_id hb he
    exact update_progress_isOk_of_parsed book_id pct status seconds lrd sd
      force edition_id env b_id e_id hb he
  · intro book_id pct status seconds lrd sd force edition_id env b_id e_id
      muts hb he
    rw [update_progress_eq_of_parsed book_id pct status seconds lrd sd force
      edition_id env b_id e_id hb he]
    constructor
    · intro h
      rw [h]
    · intro h
      cases hbody : updateBody b_id e_id (statusIdOf status) pct status
          seconds lrd sd force env with
      | error m =>
        rw [hbody] at h
        dsimp only at h
        simp only [Except.ok.injEq, Prod.mk.injEq] at h
        rw [h.2]
      | ok r =>
        rw [hbody] at h
        dsimp only at h
        simp only [Except.ok.injEq] at h
        have hb1 := updateBody_ok_true b_id e_id (statusIdOf status) pct
          status seconds lrd sd force env r.1 r.2 (by rw [hbody])
        rw [h] at hb1
        simp at hb1
  · intro book_id pct status seconds lrd sd force edition_id env b_id e_id hb
      he hfail
    have hrtp : resolveTotalPages e_id env = .error () := by
      cases ht : oiTruthy e_id with
      | false =>
        rw [ht] at hfail
        simp only [Bool.false_eq_true, if_false] at hfail
        unfold resolveTotalPages
        rw [ht]
        simp [hfail, oiTruthy]
      | true =>
        rw [ht] at hfail
        simp only [if_true] at hfail
        unfold resolveTotalPages
        rw [ht]
        simp [hfail]
    rw [update_progress_eq_of_parsed book_id pct status seconds lrd sd force
      edition_id env b_id e_id hb he]
    simp [updateBody, hrtp]

/-- Witness for C10 at concrete inputs: a non-numeric book id raises, a
numeric one returns a boolean, a body raising at UpdateUBR after two
completed mutations returns False carrying them, and a failing first query
returns False with no mutations. -/
theorem C10_conversions_and_catch_witness :
    update_progress "abc" 0 "reading" 0 none none false none
      (okEnv none (some (some 100)) none 0 none 0) = .error .valueError ∧
    (∃ r, update_progress "1" 0 "reading" 0 none none false none
      (okEnv none (some (some 100)) none 0 none 0) = .ok r) ∧
    update_progress "1" 0 "reading" 0 none none false none
      ⟨.ok none, .ok (some (some 100)), .ok none, .ok 7, .ok none, .ok 9,
        .error (), .ok ()⟩ =
      .ok (false, [Mutation.createUserBook 1 2 none,
        Mutation.createReadRecord 7]) ∧
    update_progress "1" 0 "reading" 0 none none false none
      ⟨.ok none, .error (), .ok none, .ok 0, .ok none, .ok 0, .ok (), .ok ()⟩ =
      .ok (false, []) := by
  refine ⟨?_, ?_, ?_, ?_⟩
  · exact C10_conversions_and_catch.1 "abc" 0 "reading" 0 none none false none
      (okEnv none (some (some 100)) none 0 none 0)
      (Or.inl ⟨by decide, by decide⟩)
  · exact C10_conversions_and_catch.2.1 "1" 0 "reading" 0 none none false none
      (okEnv none (some (some 100)) none 0 none 0) 1 none (by decide) rfl
  · exact (C10_conversions_and_catch.2.2.1 "1" 0 "reading" 0 none none false
      none ⟨.ok none, .ok (some (some 100)), .ok none, .ok 7, .ok none, .ok 9,
        .error (), .ok ()⟩ 1 none
      [Mutation.createUserBook 1 2 none, Mutation.createReadRecord 7]
      (by decide) rfl).mp rfl
  · exact C10_conversions_and_catch.2.2.2 "1" 0 "reading" 0 none none false
      none
      ⟨.ok none, .error (), .ok none, .ok 0, .ok none, .ok 0, .ok (), .ok ()⟩
      1 none (by decide) rfl (by simp [oiTruthy])

lemma sync_progress_cons (force : Bool) (envOf : BookRow → RemoteEnv)
    (row : BookRow) (rest : List BookRow) :
    sync_progress force envOf (row :: rest) =
      match rowUpdate force envOf row with
      | .error _ => ([], [])
      | .ok (success, _) =>
        let r := sync_progress force envOf rest
        ((row.title, success) :: r.1,
          (if success then [row.b_id] else []) ++ r.2) := rfl

lemma sync_synced_sub (force : Bool) (envOf : BookRow → RemoteEnv)
    (books : List BookRow) :
    ∀ b ∈ (sync_progress force envOf books).2, ∃ row ∈ books, row.b_id = b := by
  induction books with
  | nil => simp [sync_progress]
  | cons row rest ih =>
    intro b hb
    rw [sync_progress_cons] at hb
    cases hr : rowUpdate force envOf row with
    | error e => rw [hr] at hb; simp at hb
    | ok s =>
      rw [hr] at hb
      rcases List.mem_append.mp hb with hl | hrr
      · refine ⟨row, List.mem_cons_self row rest, ?_⟩
        rcases hs : s.1 <;> rw [hs] at hl <;> simp_all
      · obtain ⟨q, hq, hqe⟩ := ih b hrr
        exact ⟨q, List.mem_cons_of_mem _ hq, hqe⟩

/-- A fetched row on which the loop body cannot raise: the page columns
admit the percentage expression of engine.py line 123 (non-NULL total
pages, and non-NULL read pages when the total is positive), the mapped
hardcover id is present and converts with `int()`, and so does the edition
id when set. -/
def rowSafe (row : BookRow) : Prop :=
  (∃ t, row.total_pg = some t ∧ (0 < t → row.read_pg.isSome = true)) ∧
  (∃ s b, row.hc_id = some s ∧ pyParseInt s = some b) ∧
  (∃ e, parseEdition row.edition_id = .ok e)

lemma rowUpdate_isOk_of_safe (force : Bool) (envOf : BookRow → RemoteEnv)
    (row : BookRow) (h : rowSafe row) :
    ∃ r, rowUpdate force envOf row = .ok r := by
  obtain ⟨⟨t, ht, hrp⟩, ⟨s, b, hs, hpb⟩, ⟨e, hed⟩⟩ := h
  have hpct : ∃ q, rowPercentage row.read_pg row.total_pg = .ok q := by
    unfold rowPercentage
    rw [ht]
    dsimp only
    by_cases h0 : 0 < t
    · rw [if_pos h0]
      obtain ⟨r0, hr0⟩ := Option.isSome_iff_exists.mp (hrp h0)
      rw [hr0]
      exact ⟨_, rfl⟩
    · rw [if_neg h0]
      exact ⟨_, rfl⟩
  obtain ⟨q, hq⟩ := hpct
  unfold rowUpdate
  rw [hq, hs]
  dsimp only
  exact update_progress_isOk_of_parsed s q row.status row.read_time
    row.last_open row.start_date force row.edition_id (envOf row) b e hpb hed

/-- C7 amended: a reported failure of book K (update_progress returning
False) never prevents book K+1: whenever every row of the batch is safe —
non-NULL page columns for the percentage expression and present, parseable
hardcover and edition ids — every book obtains an individual
(title, success) outcome, whatever the remote service answers.  A loop
body that raises instead — `int()` on a non-numeric or NULL id
(ValueError/TypeError, hardcover_client.py line 253), or the percentage
expression on NULL page columns (TypeError, engine.py line 123) — escapes
into the try wrapped around the whole loop (engine.py line 145), aborting
the batch (see the counterexample). -/
theorem C7_batch_outcomes (force : Bool) (envOf : BookRow → RemoteEnv)
    (books : List BookRow) (h : ∀ row ∈ books, rowSafe row) :
    (sync_progress force envOf books).1.map Prod.fst =
      books.map (fun r => r.title) := by
  induction books with
  | nil => rfl
  | cons row rest ih =>
    obtain ⟨r, hru⟩ := rowUpdate_isOk_of_safe force envOf row
      (h row (List.mem_cons_self row rest))
    have hrest := ih (fun q hq => h q (List.mem_cons_of_mem _ hq))
    rw [sync_progress_cons, hru]
    simp [hrest]

/-- Witness for C7 at a concrete batch: two safe rows, remote answering
every call, both books get an outcome. -/
theorem C7_batch_outcomes_witness :
    ((sync_progress false (fun _ => okEnv none (some (some 100)) none 9 none 8)
      [⟨"md5_a", "One", some 10, some 100, "reading", 5, none, some "1",
        none, none⟩,
       ⟨"md5_b", "Two", some 10, some 100, "reading", 5, none, some "2",
        none, none⟩]).1.map Prod.fst) = ["One", "Two"] :=
  C7_batch_outcomes false (fun _ => okEnv none (some (some 100)) none 9 none 8)
    [⟨"md5_a", "One", some 10, some 100, "reading", 5, none, some "1",
      none, none⟩,
     ⟨"md5_b", "Two", some 10, some 100, "reading", 5, none, some "2",
      none, none⟩]
    (by
      intro row hrow
      simp only [List.mem_cons, List.not_mem_nil, or_false] at hrow
      rcases hrow with h1 | h1
      · exact ⟨⟨100, by rw [h1], fun _ => by rw [h1]; rfl⟩,
          ⟨"1", 1, by rw [h1], by decide⟩, ⟨none, by rw [h1]; rfl⟩⟩
      · exact ⟨⟨100, by rw [h1], fun _ => by rw [h1]; rfl⟩,
          ⟨"2", 2, by rw [h1], by decide⟩, ⟨none, by rw [h1]; rfl⟩⟩)

/-- C7 counterexample: the first book's hardcover id "xx" makes the `int()`
conversion raise ValueError; the engine's try wraps the whole loop, so the
batch aborts with no outcome at all — the second book "Good" is never
reconciled, contradicting the claim that a raising update_progress still
lets book K+1 be reconciled and every book obtain an outcome.  A NULL
total_pages column aborts the batch the same way, via the TypeError of the
percentage expression. -/
theorem C7_counterexample :
    (sync_progress false (fun _ => okEnv none (some (some 100)) none 9 none 8)
      [⟨"md5_a", "Bad", some 10, some 100, "reading", 5, none, some "xx",
        none, none⟩,
       ⟨"md5_b", "Good", some 10, some 100, "reading", 5, none, some "2",
        none, none⟩]).1 = [] ∧
    ([⟨"md5_a", "Bad", some 10, some 100, "reading", 5, none, some "xx",
       none, none⟩,
      ⟨"md5_b", "Good", some 10, some 100, "reading", 5, none, some "2",
       none, none⟩] : List BookRow).length = 2 ∧
    (sync_progress false (fun _ => okEnv none (some (some 100)) none 9 none 8)
      [⟨"md5_c", "NullPages", some 10, none, "reading", 5, none, some "3",
        none, none⟩,
       ⟨"md5_b", "Good", some 10, some 100, "reading", 5, none, some "2",
        none, none⟩]).1 = [] := by
  refine ⟨?_, rfl, ?_⟩
  · have hx : pyParseInt "xx" = none := by decide
    rw [sync_progress_cons]
    have hbad : rowUpdate false
        (fun _ => okEnv none (some (some 100)) none 9 none 8)
        ⟨"md5_a", "Bad", some 10, some 100, "reading", 5, none, some "xx",
          none, none⟩ = .error .valueError := by
      simp [rowUpdate, rowPercentage, update_progress, hx]
    rw [hbad]
  · rw [sync_progress_cons]
    have hbad : rowUpdate false
        (fun _ => okEnv none (some (some 100)) none 9 none 8)
        ⟨"md5_c", "NullPages", some 10, none, "reading", 5, none, some "3",
          none, none⟩ = .error .typeError := by
      simp [rowUpdate, rowPercentage]
    rw [hbad]

/-- C8: in sync_progress a book's row is set to sync_status 'synced' exactly
when update_progress returned success for it; on a reported failure the
row's sync_status is left untouched.  The hypotheses say that every row is
safe — non-NULL page columns, present parseable ids — so the loop body
never raises and the loop reaches every row, and that the local book ids
are distinct, as they are in the books table, where id is the primary
key. -/
theorem C8_synced_iff_success (force : Bool) (envOf : BookRow → RemoteEnv)
    (books : List BookRow) (hp : ∀ row ∈ books, rowSafe row)
    (hnd : (books.map (fun r => r.b_id)).Nodup) :
    ∀ row ∈ books,
      (row.b_id ∈ (sync_progress force envOf books).2 ↔
        ∃ m, rowUpdate force envOf row = .ok (true, m)) := by
  induction books with
  | nil => intro row h; cases h
  | cons head rest ih =>
    intro row hrow
    obtain ⟨⟨s, m⟩, hru⟩ := rowUpdate_isOk_of_safe force envOf head
      (hp head (List.mem_cons_self head rest))
    rw [List.map_cons, List.nodup_cons] at hnd
    rcases List.mem_cons.mp hrow with hEq | hMem
    · subst hEq
      have hnotin : row.b_id ∉ (sync_progress force envOf rest).2 := by
        intro hin
        obtain ⟨q, hq, hqe⟩ := sync_synced_sub force envOf rest row.b_id hin
        exact hnd.1 (hqe ▸ List.mem_map_of_mem (fun r => r.b_id) hq)
      rw [sync_progress_cons, hru]
      cases s
      · simp [hnotin, hru]
      · simp [hnotin, hru]
    · have hne : row.b_id ≠ head.b_id := by
        intro hc
        exact hnd.1 (hc ▸ List.mem_map_of_mem (fun r => r.b_id) hMem)
      have ihh := ih (fun q hq => hp q (List.mem_cons_of_mem _ hq)) hnd.2 row
        hMem
      rw [sync_progress_cons, hru]
      cases s <;> simp [hne, ihh]

/-- Witness for C8 at a concrete one-row batch: the safe row syncs and its
id is marked exactly when its update succeeded. -/
theorem C8_synced_iff_success_witness :
    ("md5_a" ∈ (sync_progress false
      (fun _ => okEnv none (some (some 100)) none 9 none 8)
      [⟨"md5_a", "One", some 10, some 100, "reading", 5, none, some "1",
        none, none⟩]).2 ↔
      ∃ m, rowUpdate false (fun _ => okEnv none (some (some 100)) none 9
          none 8)
        ⟨"md5_a", "One", some 10, some 100, "reading", 5, none, some "1",
          none, none⟩ = .ok (true, m)) :=
  C8_synced_iff_success false
    (fun _ => okEnv none (some (some 100)) none 9 none 8)
    [⟨"md5_a", "One", some 10, some 100, "reading", 5, none, some "1",
      none, none⟩]
    (by
      intro row hrow
      simp only [List.mem_cons, List.not_mem_nil, or_false] at hrow
      exact ⟨⟨100, by rw [hrow], fun _ => by rw [hrow]; rfl⟩,
        ⟨"1", 1, by rw [hrow], by decide⟩, ⟨none, by rw [hrow]; rfl⟩⟩)
    (by simp)
    ⟨"md5_a", "One", some 10, some 100, "reading", 5, none, some "1",
      none, none⟩
    (List.mem_cons_self _ _)

/-- Closed form of the mutation cascade when every remote call succeeds;
`updateBody_okEnv` proves it equal to `updateBody` on `okEnv`. -/
def okRun (b_id : Int) (e_id : Option Int) (sid : Int) (pct : ℚ)
    (status : String) (sec : Int) (lrd sd : Option Date) (force : Bool)
    (ep bp : Option (Option Int)) (ub : Option UserBook) (nub : Int)
    (ar : Option Int) (nubr : Int) : List Mutation :=
  let tp := resolvedPages e_id ep bp
  let tgt := targetPage tp pct
  if shouldSkip force status sid e_id sec lrd sd tgt ub then []
  else
    let fin := if status = "finished" then lrd.map Date.fmt else none
    match ub with
    | none =>
      Mutation.createUserBook b_id sid e_id ::
      (if oiTruthy ar then
        [Mutation.updateReadRecord (ar.getD 0)
          (if oiTruthy tp then some tgt else none) sec (sd.map Date.fmt) fin]
       else
        [Mutation.createReadRecord nub,
         Mutation.updateReadRecord nubr
           (if oiTruthy tp then some tgt else none) sec (sd.map Date.fmt)
           fin])
    | some u =>
      let cp := u.latest_read.bind (fun r => r.progress_pages)
      let cst := u.latest_read.bind (fun r => r.started_at)
      let st := match sd with
        | some d => some d.fmt
        | none => cst
      let pay := if oiTruthy tp then some tgt else cp
      let ubr0 := u.latest_read.map (fun r => r.id)
      (if oiTruthy ubr0 then
        [Mutation.updateReadRecord (ubr0.getD 0) pay sec st fin]
       else
        [Mutation.createReadRecord u.id,
         Mutation.updateReadRecord nubr pay sec st fin]) ++
      (if u.status_id ≠ some sid ∨ u.edition_id ≠ e_id then
        [Mutation.updateUserBook u.id sid e_id] else [])

lemma updateBody_okEnv (b_id : Int) (e_id : Option Int) (sid : Int) (pct : ℚ)
    (status : String) (sec : Int) (lrd sd : Option Date) (force : Bool)
    (ep bp : Option (Option Int)) (ub : Option UserBook) (nub : Int)
    (ar : Option Int) (nubr : Int) :
    updateBody b_id e_id sid pct status sec lrd sd force
        (okEnv ep bp ub nub ar nubr) =
      .ok (true, okRun b_id e_id sid pct status sec lrd sd force ep bp ub nub
        ar nubr) := by
  unfold updateBody okRun
  rw [resolveTotalPages_okEnv]
  by_cases hskip : shouldSkip force status sid e_id sec lrd sd
      (targetPage (resolvedPages e_id ep bp) pct) ub = true
  · simp [okEnv, hskip]
  · rw [Bool.not_eq_true] at hskip
    unfold runMutations finishMutations
    cases ub with
    | none =>
      by_cases har : oiTruthy ar = true <;> cases sd <;>
        simp [okEnv, hskip, har]
    | some u =>
      by_cases hu : oiTruthy (u.latest_read.map (fun r => r.id)) = true <;>
        by_cases hcond : u.status_id ≠ some sid ∨ u.edition_id ≠ e_id <;>
        simp [okEnv, hskip, hu, hcond]

lemma update_progress_okEnv (book_id : String) (pct : ℚ) (status : String)
    (sec : Int) (lrd sd : Option Date) (force : Bool)
    (edition_id : Option String) (ep bp : Option (Option Int))
    (ub : Option UserBook) (nub : Int) (ar : Option Int) (nubr : Int)
    (b_id : Int) (e_id : Option Int)
    (hb : pyParseInt book_id = some b_id)
    (he : parseEdition edition_id = .ok e_id) :
    update_progress book_id pct status sec lrd sd force edition_id
        (okEnv ep bp ub nub ar nubr) =
      .ok (true, okRun b_id e_id (statusIdOf status) pct status sec lrd sd
        force ep bp ub nub ar nubr) := by
  rw [update_progress_eq_of_parsed book_id pct status sec lrd sd force
    edition_id (okEnv ep bp ub nub ar nubr) b_id e_id hb he, updateBody_okEnv]

lemma shouldSkip_none (force : Bool) (status : String) (sid : Int)
    (e_id : Option Int) (sec : Int) (lrd sd : Option Date) (tgt : Int) :
    shouldSkip force status sid e_id sec lrd sd tgt none = false := rfl

lemma shouldSkip_some_iff (force : Bool) (status : String) (sid : Int)
    (e_id : Option Int) (sec : Int) (lrd sd : Option Date) (tgt : Int)
    (u : UserBook) :
    shouldSkip force status sid e_id sec lrd sd tgt (some u) = true ↔
      ((force = false ∧ u.status_id = some sid ∧
        (e_id = none ∨ u.edition_id = e_id)) ∧
       ((u.latest_read.bind fun r => r.progress_pages).isSome = true ∧
         |(u.latest_read.bind fun r => r.progress_pages).getD 0 - tgt| < 2) ∧
       ((u.latest_read.bind fun r => r.progress_seconds).isSome = true ∧
         |(u.latest_read.bind fun r => r.progress_seconds).getD 0 - sec| < 60) ∧
       (u.latest_read.bind fun r => r.started_at) = sd.map Date.fmt ∧
       (status = "finished" →
         (u.latest_read.bind fun r => r.finished_at) = lrd.map Date.fmt)) := by
  simp only [shouldSkip]
  by_cases hcond : (!force) = true ∧ u.status_id = some sid ∧
      (e_id = none ∨ u.edition_id = e_id)
  · rw [if_pos hcond]
    obtain ⟨hf, hA, hB⟩ := hcond
    rw [Bool.not_eq_true'] at hf
    simp only [decide_eq_true_eq]
    constructor
    · rintro ⟨pm, tm, sm, fm⟩
      refine ⟨⟨hf, hA, hB⟩, pm, tm, sm, ?_⟩
      intro hfin
      rw [if_pos hfin, if_pos hfin] at fm
      exact fm
    · rintro ⟨_, pm, tm, sm, fm⟩
      refine ⟨pm, tm, sm, ?_⟩
      by_cases hfin : status = "finished"
      · rw [if_pos hfin, if_pos hfin]
        exact fm hfin
      · rw [if_neg hfin]
        trivial
  · rw [if_neg hcond]
    constructor
    · intro hc
      exact absurd hc (by simp)
    · rintro ⟨⟨hf, hA, hB⟩, _⟩
      exact absurd ⟨by simp [hf], hA, hB⟩ hcond

lemma countMut_append (p : Mutation → Bool) (a b : List Mutation) :
    countMut p (a ++ b) = countMut p a + countMut p b := by
  simp [countMut, List.filter_append]

/-- The started_at payload of line 420-422: the formatted local start date
when present, otherwise the remote read record's current started_at. -/
def startedPayload (sd : Option Date) (cst : Option String) : Option String :=
  match sd with
  | some d => some d.fmt
  | none => cst

lemma crr_finish_le (e_id : Option Int) (sid : Int) (tp : Option Int)
    (tgt : Int) (status : String) (sec : Int) (lrd sd : Option Date)
    (ub_id : Int) (ubr0 : Option Int) (cs ce cp : Option Int)
    (cst : Option String) (acc : List Mutation) (env : RemoteEnv) :
    countMut isCreateReadRecord (mutsOf (finishMutations e_id sid tp tgt status
        sec lrd sd ub_id ubr0 cs ce cp cst acc env)) ≤
      countMut isCreateReadRecord acc + 1 := by
  obtain ⟨f1, f2, f3, f4, f5, f6, f7, f8⟩ := env
  by_cases hu : oiTruthy ubr0 = true <;> cases f6 <;> cases f7 <;> cases f8 <;>
    by_cases hc : ¬cs = some sid ∨ ¬ce = e_id <;>
    simp_all [finishMutations, mutsOf, countMut, List.filter_append,
      isCreateReadRecord]

lemma crr_run_le (b_id : Int) (e_id : Option Int) (sid : Int)
    (tp : Option Int) (tgt : Int) (status : String) (sec : Int)
    (lrd sd : Option Date) (ub : Option UserBook) (env : RemoteEnv) :
    countMut isCreateReadRecord (mutsOf (runMutations b_id e_id sid tp tgt
        status sec lrd sd ub env)) ≤ 1 := by
  unfold runMutations
  cases ub with
  | none =>
    cases h1 : env.createUserBook with
    | error e => simp [mutsOf, countMut]
    | ok ubid =>
      cases h2 : env.fetchNewUserBook with
      | error e => simp [mutsOf, countMut, isCreateReadRecord]
      | ok ar =>
        have h := crr_finish_le e_id sid tp tgt status sec lrd sd ubid ar
          (some sid) e_id none none [Mutation.createUserBook b_id sid e_id] env
        exact le_trans h (by simp [countMut, isCreateReadRecord])
  | some u =>
    have h := crr_finish_le e_id sid tp tgt status sec lrd sd u.id
      (u.latest_read.map fun r => r.id) u.status_id u.edition_id
      (u.latest_read.bind fun r => r.progress_pages)
      (u.latest_read.bind fun r => r.started_at) [] env
    exact le_trans h (by simp [countMut])

lemma crr_body_le (b_id : Int) (e_id : Option Int) (sid : Int) (pct : ℚ)
    (status : String) (sec : Int) (lrd sd : Option Date) (force : Bool)
    (env : RemoteEnv) :
    countMut isCreateReadRecord (mutsOf (updateBody b_id e_id sid pct status
        sec lrd sd force env)) ≤ 1 := by
  unfold updateBody
  cases h1 : resolveTotalPages e_id env with
  | error e => simp [mutsOf, countMut]
  | ok tp =>
    cases h2 : env.userBookInfo with
    | error e => simp [mutsOf, countMut]
    | ok ub =>
      dsimp only
      by_cases hskip : shouldSkip force status sid e_id sec lrd sd
          (targetPage tp pct) ub = true
      · simp [hskip, mutsOf, countMut]
      · rw [if_neg hskip]
        exact crr_run_le b_id e_id sid tp (targetPage tp pct) status sec lrd
          sd ub env

lemma urr_mem_finish (e_id : Option Int) (sid : Int) (tp : Option Int)
    (tgt : Int) (status : String) (sec : Int) (lrd sd : Option Date)
    (ub_id : Int) (ubr0 : Option Int) (cs ce cp : Option Int)
    (cst : Option String) (acc : List Mutation) (env : RemoteEnv)
    (i : Int) (pg : Option Int) (s2 : Int) (st fin : Option String)
    (h : Mutation.updateReadRecord i pg s2 st fin ∈
      mutsOf (finishMutations e_id sid tp tgt status sec lrd sd ub_id ubr0 cs
        ce cp cst acc env)) :
    Mutation.updateReadRecord i pg s2 st fin ∈ acc ∨
      (pg = (if oiTruthy tp then some tgt else cp) ∧ s2 = sec ∧
       st = startedPayload sd cst ∧
       fin = (if status = "finished" then lrd.map Date.fmt else none)) := by
  obtain ⟨f1, f2, f3, f4, f5, f6, f7, f8⟩ := env
  unfold finishMutations at h
  by_cases hu : oiTruthy ubr0 = true <;> cases f6 <;> cases f7 <;> cases f8 <;>
    by_cases hc : cs ≠ some sid ∨ ce ≠ e_id
  all_goals (try simp only [hu, if_true, if_false, ite_true, ite_false] at h)
  all_goals (try dsimp only at h)
  all_goals (try simp only [hc, not_true, not_false_iff, if_true, if_false,
    ite_true, ite_false, mutsOf, List.append_assoc, List.mem_append,
    List.mem_singleton, List.mem_cons, List.not_mem_nil, or_false] at h)
  all_goals (try simp at h)
  all_goals (try simp only [startedPayload])
  all_goals tauto

lemma urr_mem_run (b_id : Int) (e_id : Option Int) (sid : Int)
    (tp : Option Int) (tgt : Int) (status : String) (sec : Int)
    (lrd sd : Option Date) (ub : Option UserBook) (env : RemoteEnv)
    (i : Int) (pg : Option Int) (s2 : Int) (st fin : Option String)
    (h : Mutation.updateReadRecord i pg s2 st fin ∈
      mutsOf (runMutations b_id e_id sid tp tgt status sec lrd sd ub env)) :
    s2 = sec ∧
    fin = (if status = "finished" then lrd.map Date.fmt else none) ∧
    (oiTruthy tp = true → pg = some tgt) := by
  unfold runMutations at h
  cases ub with
  | none =>
    cases h1 : env.createUserBook with
    | error e => rw [h1] at h; simp [mutsOf] at h
    | ok ubid =>
      rw [h1] at h
      cases h2 : env.fetchNewUserBook with
      | error e => rw [h2] at h; simp [mutsOf] at h
      | ok ar =>
        rw [h2] at h
        rcases urr_mem_finish e_id sid tp tgt status sec lrd sd ubid ar
            (some sid) e_id none none
            [Mutation.createUserBook b_id sid e_id] env i pg s2 st fin h with
          hacc | ⟨hpg, hs, hst, hfin⟩
        · simp at hacc
        · refine ⟨hs, hfin, ?_⟩
          intro ht
          rw [hpg, if_pos ht]
  | some u =>
    rcases urr_mem_finish e_id sid tp tgt status sec lrd sd u.id
        (u.latest_read.map fun r => r.id) u.status_id u.edition_id
        (u.latest_read.bind fun r => r.progress_pages)
        (u.latest_read.bind fun r => r.started_at) [] env i pg s2 st fin h with
      hacc | ⟨hpg, hs, hst, hfin⟩
    · cases hacc
    · refine ⟨hs, hfin, ?_⟩
      intro ht
      rw [hpg, if_pos ht]

lemma urr_mem_body (b_id : Int) (e_id : Option Int) (sid : Int) (pct : ℚ)
    (status : String) (sec : Int) (lrd sd : Option Date) (force : Bool)
    (env : RemoteEnv) (i : Int) (pg : Option Int) (s2 : Int)
    (st fin : Option String)
    (h : Mutation.updateReadRecord i pg s2 st fin ∈
      mutsOf (updateBody b_id e_id sid pct status sec lrd sd force env)) :
    s2 = sec ∧
    fin = (if status = "finished" then lrd.map Date.fmt else none) ∧
    (∀ tp, resolveTotalPages e_id env = .ok tp → oiTruthy tp = true →
      pg = some (targetPage tp pct)) := by
  unfold updateBody at h
  cases h1 : resolveTotalPages e_id env with
  | error e => rw [h1] at h; simp [mutsOf] at h
  | ok tp =>
    rw [h1] at h
    cases h2 : env.userBookInfo with
    | error e => rw [h2] at h; simp [mutsOf] at h
    | ok ub =>
      rw [h2] at h
      dsimp only at h
      by_cases hskip : shouldSkip force status sid e_id sec lrd sd
          (targetPage tp pct) ub = true
      · rw [if_pos hskip] at h
        simp [mutsOf] at h
      · rw [if_neg hskip] at h
        obtain ⟨hs, hfin, hpg⟩ := urr_mem_run b_id e_id sid tp
          (targetPage tp pct) status sec lrd sd ub env i pg s2 st fin h
        refine ⟨hs, hfin, ?_⟩
        intro tp2 htp2 ht
        injection htp2 with htp2
        subst htp2
        exact hpg ht

lemma okRun_skip (b_id : Int) (e_id : Option Int) (sid : Int) (pct : ℚ)
    (status : String) (sec : Int) (lrd sd : Option Date) (force : Bool)
    (ep bp : Option (Option Int)) (ub : Option UserBook) (nub : Int)
    (ar : Option Int) (nubr : Int)
    (hskip : shouldSkip force status sid e_id sec lrd sd
      (targetPage (resolvedPages e_id ep bp) pct) ub = true) :
    okRun b_id e_id sid pct status sec lrd sd force ep bp ub nub ar nubr =
      [] := by
  unfold okRun
  simp [hskip]

lemma okRun_not_skip_ne_nil (b_id : Int) (e_id : Option Int) (sid : Int)
    (pct : ℚ) (status : String) (sec : Int) (lrd sd : Option Date)
    (force : Bool) (ep bp : Option (Option Int)) (ub : Option UserBook)
    (nub : Int) (ar : Option Int) (nubr : Int)
    (hskip : shouldSkip force status sid e_id sec lrd sd
      (targetPage (resolvedPages e_id ep bp) pct) ub = false) :
    okRun b_id e_id sid pct status sec lrd sd force ep bp ub nub ar nubr ≠
      [] := by
  unfold okRun
  simp only [hskip, Bool.false_eq_true, if_false]
  cases ub with
  | none => by_cases har : oiTruthy ar = true <;> simp [har]
  | some u =>
    by_cases hu : oiTruthy (u.latest_read.map (fun r => r.id)) = true <;>
      by_cases hc : u.status_id ≠ some sid ∨ u.edition_id ≠ e_id <;>
      simp [hu, hc]

lemma okRun_count_urr (b_id : Int) (e_id : Option Int) (sid : Int) (pct : ℚ)
    (status : String) (sec : Int) (lrd sd : Option Date) (force : Bool)
    (ep bp : Option (Option Int)) (ub : Option UserBook) (nub : Int)
    (ar : Option Int) (nubr : Int)
    (hskip : shouldSkip force status sid e_id sec lrd sd
      (targetPage (resolvedPages e_id ep bp) pct) ub = false) :
    1 ≤ countMut isUpdateReadRecord
      (okRun b_id e_id sid pct status sec lrd sd force ep bp ub nub ar nubr) := by
  unfold okRun
  simp only [hskip, Bool.false_eq_true, if_false]
  cases ub with
  | none =>
    by_cases har : oiTruthy ar = true <;>
      simp [har, countMut, isUpdateReadRecord]
  | some u =>
    by_cases hu : oiTruthy (u.latest_read.map (fun r => r.id)) = true <;>
      by_cases hc : u.status_id ≠ some sid ∨ u.edition_id ≠ e_id <;>
      simp [hu, hc, countMut, List.filter_append, isUpdateReadRecord]

lemma okRun_existing (b_id : Int) (e_id : Option Int) (sid : Int) (pct : ℚ)
    (status : String) (sec : Int) (lrd sd : Option Date) (force : Bool)
    (ep bp : Option (Option Int)) (nub : Int) (ar : Option Int) (nubr : Int)
    (u : UserBook) (rr : ReadRecord)
    (hskip : shouldSkip force status sid e_id sec lrd sd
      (targetPage (resolvedPages e_id ep bp) pct) (some u) = false)
    (hlr : u.latest_read = some rr) (hid : rr.id ≠ 0) :
    okRun b_id e_id sid pct status sec lrd sd force ep bp (some u) nub ar
        nubr =
      Mutation.updateReadRecord rr.id
        (if oiTruthy (resolvedPages e_id ep bp) then
          some (targetPage (resolvedPages e_id ep bp) pct)
          else rr.progress_pages)
        sec (startedPayload sd rr.started_at)
        (if status = "finished" then lrd.map Date.fmt else none) ::
      (if u.status_id ≠ some sid ∨ u.edition_id ≠ e_id then
        [Mutation.updateUserBook u.id sid e_id] else []) := by
  unfold okRun
  simp only [hskip, Bool.false_eq_true, if_false]
  by_cases hc : u.status_id ≠ some sid ∨ u.edition_id ≠ e_id <;>
    cases sd <;> simp [hc, hlr, hid, oiTruthy, startedPayload]

lemma okRun_existing_zero (b_id : Int) (e_id : Option Int) (sid : Int)
    (pct : ℚ) (status : String) (sec : Int) (lrd sd : Option Date)
    (force : Bool) (ep bp : Option (Option Int)) (nub : Int)
    (ar : Option Int) (nubr : Int) (u : UserBook) (rr : ReadRecord)
    (hskip : shouldSkip force status sid e_id sec lrd sd
      (targetPage (resolvedPages e_id ep bp) pct) (some u) = false)
    (hlr : u.latest_read = some rr) (hid : rr.id = 0) :
    okRun b_id e_id sid pct status sec lrd sd force ep bp (some u) nub ar
        nubr =
      Mutation.createReadRecord u.id ::
      Mutation.updateReadRecord nubr
        (if oiTruthy (resolvedPages e_id ep bp) then
          some (targetPage (resolvedPages e_id ep bp) pct)
          else rr.progress_pages)
        sec (startedPayload sd rr.started_at)
        (if status = "finished" then lrd.map Date.fmt else none) ::
      (if u.status_id ≠ some sid ∨ u.edition_id ≠ e_id then
        [Mutation.updateUserBook u.id sid e_id] else []) := by
  unfold okRun
  simp only [hskip, Bool.false_eq_true, if_false]
  by_cases hc : u.status_id ≠ some sid ∨ u.edition_id ≠ e_id <;>
    cases sd <;> simp [hc, hlr, hid, oiTruthy, startedPayload]

/-- C1 amended: when the remote snapshot has no user-book (the skip test
cannot fire then), a run in which every remote call succeeds issues exactly
one CreateUserBook, then at most one CreateReadRecord — none exactly when
the fetch of the fresh user-book shows an auto-created read record with a
TRUTHY id, since line 391 tests `if not ubr_id:` and an id of 0 counts as
missing — then exactly one UpdateReadRecord, and no UpdateUserBook, since
the requested status and edition always equal the values just passed to
CreateUserBook; moreover every reconciliation, whatever the snapshot and
whatever calls fail, creates at most one read record. -/
theorem C1_creation_cascade :
    (∀ (book_id : String) (pct : ℚ) (status : String) (sec : Int)
      (lrd sd : Option Date) (force : Bool) (edition_id : Option String)
      (ep bp : Option (Option Int)) (nub : Int) (ar : Option Int) (nubr : Int)
      (b_id : Int) (e_id : Option Int) (b : Bool) (muts : List Mutation),
      pyParseInt book_id = some b_id → parseEdition edition_id = .ok e_id →
      update_progress book_id pct status sec lrd sd force edition_id
        (okEnv ep bp none nub ar nubr) = .ok (b, muts) →
      b = true ∧
      (∃ ubr pays,
        muts = Mutation.createUserBook b_id (statusIdOf status) e_id ::
          ((if oiTruthy ar then [] else [Mutation.createReadRecord nub]) ++
           [Mutation.updateReadRecord ubr pays sec (sd.map Date.fmt)
             (if status = "finished" then lrd.map Date.fmt else none)])) ∧
      countMut isCreateUserBook muts = 1 ∧
      countMut isCreateReadRecord muts = (if oiTruthy ar then 0 else 1) ∧
      countMut isUpdateReadRecord muts = 1 ∧
      countMut isUpdateUserBook muts = 0) ∧
    (∀ (book_id : String) (pct : ℚ) (status : String) (sec : Int)
      (lrd sd : Option Date) (force : Bool) (edition_id : Option String)
      (env : RemoteEnv) (b : Bool) (muts : List Mutation),
      update_progress book_id pct status sec lrd sd force edition_id env =
        .ok (b, muts) →
      countMut isCreateReadRecord muts ≤ 1) := by
  constructor
  · intro book_id pct status sec lrd sd force edition_id ep bp nub ar nubr
      b_id e_id b muts hb he h
    rw [update_progress_okEnv book_id pct status sec lrd sd force edition_id
      ep bp none nub ar nubr b_id e_id hb he] at h
    simp only [Except.ok.injEq, Prod.mk.injEq] at h
    obtain ⟨hb2, hm⟩ := h
    subst hb2
    by_cases har : oiTruthy ar = true
    · refine ⟨rfl, ⟨ar.getD 0, if oiTruthy (resolvedPages e_id ep bp) then
          some (targetPage (resolvedPages e_id ep bp) pct) else none, ?_⟩,
        ?_, ?_, ?_, ?_⟩ <;>
      · rw [← hm]
        simp [okRun, shouldSkip_none, har, countMut, isCreateUserBook,
          isCreateReadRecord, isUpdateReadRecord, isUpdateUserBook]
    · refine ⟨rfl, ⟨nubr, if oiTruthy (resolvedPages e_id ep bp) then
          some (targetPage (resolvedPages e_id ep bp) pct) else none, ?_⟩,
        ?_, ?_, ?_, ?_⟩ <;>
      · rw [← hm]
        simp [okRun, shouldSkip_none, har, countMut, isCreateUserBook,
          isCreateReadRecord, isUpdateReadRecord, isUpdateUserBook]
  · intro book_id pct status sec lrd sd force edition_id env b muts h
    cases hb : pyParseInt book_id with
    | none => simp [update_progress, hb] at h
    | some b_id =>
      cases he : parseEdition edition_id with
      | error e => simp [update_progress, hb, he] at h
      | ok e_id =>
        have hm := update_progress_muts book_id pct status sec lrd sd force
          edition_id env b_id e_id b muts hb he h
        rw [hm]
        exact crr_body_le b_id e_id (statusIdOf status) pct status sec lrd sd
          force env

/-- Witness for C1 at the spec's example scenario: local reading at 50
percent of 100 pages, 3600 seconds, started 2023-01-01, no remote
user-book, no auto-created read record. -/
theorem C1_creation_cascade_witness :
    ∃ muts, update_progress "123" 50 "reading" 3600 none (some ⟨2023, 1, 1⟩)
        false none (okEnv none (some (some 100)) none 999 none 888) =
        .ok (true, muts) ∧
      countMut isCreateUserBook muts = 1 ∧
      countMut isCreateReadRecord muts = 1 ∧
      countMut isUpdateReadRecord muts = 1 ∧
      countMut isUpdateUserBook muts = 0 := by
  have hr := update_progress_okEnv "123" 50 "reading" 3600 none
    (some ⟨2023, 1, 1⟩) false none none (some (some 100)) none 999 none 888
    123 none (by decide) rfl
  have hc := C1_creation_cascade.1 "123" 50 "reading" 3600 none
    (some ⟨2023, 1, 1⟩) false none none (some (some 100)) 999 none 888 123
    none true _ (by decide) rfl hr
  exact ⟨_, hr, hc.2.2.1, by simpa using hc.2.2.2.1, hc.2.2.2.2.1,
    hc.2.2.2.2.2⟩

/-- C1 counterexample to the original claim: here the fetch of the freshly
created user-book DOES show an auto-created read record (`some 0`,
`isSome`), yet the run issues a CreateReadRecord all the same — line 391
tests Python truthiness of the id, and id 0 counts as missing. -/
theorem C1_counterexample :
    ∃ muts,
      update_progress "123" 50 "reading" 3600 none none false none
          (okEnv none (some (some 100)) none 999 (some 0) 888) =
        .ok (true, muts) ∧
      (some (0 : Int)).isSome = true ∧
      countMut isCreateReadRecord muts = 1 := by
  have hr := update_progress_okEnv "123" 50 "reading" 3600 none none false
    none none (some (some 100)) none 999 (some 0) 888 123 none (by decide)
    rfl
  refine ⟨_, hr, rfl, ?_⟩
  simp [okRun, shouldSkip_none, countMut, isCreateReadRecord, oiTruthy]

/-- C3: with a remote user-book matching status and edition and a latest
read record whose progress pages and seconds are both present and whose
start/finish date strings match, a page drift of at most 1 together with a
seconds drift of at most 59 skips all writes, while a page drift of at
least 2 or a seconds drift of at least 60 forces at least the
UpdateReadRecord mutation. -/
theorem C3_drift_tolerance
    (book_id : String) (pct : ℚ) (status : String) (sec : Int)
    (lrd sd : Option Date) (edition_id : Option String)
    (ep bp : Option (Option Int)) (u : UserBook) (rr : ReadRecord)
    (nub : Int) (ar : Option Int) (nubr : Int) (b_id : Int)
    (e_id : Option Int) (tp : Option Int) (pp ss : Int)
    (hb : pyParseInt book_id = some b_id)
    (he : parseEdition edition_id = .ok e_id)
    (hres : resolveTotalPages e_id (okEnv ep bp (some u) nub ar nubr) = .ok tp)
    (hst : u.status_id = some (statusIdOf status))
    (hed : e_id = none ∨ u.edition_id = e_id)
    (hlr : u.latest_read = some rr)
    (hpp : rr.progress_pages = some pp)
    (hss : rr.progress_seconds = some ss)
    (hsd : rr.started_at = sd.map Date.fmt)
    (hfd : status = "finished" → rr.finished_at = lrd.map Date.fmt) :
    (|pp - targetPage tp pct| ≤ 1 ∧ |ss - sec| ≤ 59 →
      update_progress book_id pct status sec lrd sd false edition_id
        (okEnv ep bp (some u) nub ar nubr) = .ok (true, [])) ∧
    (2 ≤ |pp - targetPage tp pct| ∨ 60 ≤ |ss - sec| →
      ∃ muts, update_progress book_id pct status sec lrd sd false edition_id
        (okEnv ep bp (some u) nub ar nubr) = .ok (true, muts) ∧
        1 ≤ countMut isUpdateReadRecord muts) := by
  have htp : resolvedPages e_id ep bp = tp := by
    have h2 := resolveTotalPages_okEnv e_id ep bp (some u) nub ar nubr
    rw [hres] at h2
    injection h2 with h2
    exact h2.symm
  constructor
  · rintro ⟨hp1, hs1⟩
    have hskip : shouldSkip false status (statusIdOf status) e_id sec lrd sd
        (targetPage (resolvedPages e_id ep bp) pct) (some u) = true := by
      rw [shouldSkip_some_iff]
      refine ⟨⟨rfl, hst, hed⟩, ⟨?_, ?_⟩, ⟨?_, ?_⟩, ?_, ?_⟩
      · simp [hlr, hpp]
      · simp only [hlr, Option.some_bind, hpp, Option.getD_some]
        rw [htp, abs_lt]
        have h3 := abs_le.mp hp1
        omega
      · simp [hlr, hss]
      · simp only [hlr, Option.some_bind, hss, Option.getD_some]
        rw [abs_lt]
        have h3 := abs_le.mp hs1
        omega
      · simp [hlr, hsd]
      · intro hfin
        simp [hlr, hfd hfin]
    rw [update_progress_okEnv book_id pct status sec lrd sd false edition_id
      ep bp (some u) nub ar nubr b_id e_id hb he,
      okRun_skip b_id e_id (statusIdOf status) pct status sec lrd sd false ep
        bp (some u) nub ar nubr hskip]
  · intro hdrift
    by_cases hsk : shouldSkip false status (statusIdOf status) e_id sec lrd sd
        (targetPage (resolvedPages e_id ep bp) pct) (some u) = true
    · exfalso
      rw [shouldSkip_some_iff] at hsk
      obtain ⟨h0, ⟨hp2a, hp2⟩, ⟨hs2a, hs2⟩, h4, h5⟩ := hsk
      rw [hlr] at hp2 hs2
      simp only [Option.some_bind, hpp, Option.getD_some] at hp2
      simp only [Option.some_bind, hss, Option.getD_some] at hs2
      rw [htp] at hp2
      rcases hdrift with hd | hd
      · exact absurd hp2 (not_lt.mpr hd)
      · exact absurd hs2 (not_lt.mpr hd)
    · rw [Bool.not_eq_true] at hsk
      refine ⟨okRun b_id e_id (statusIdOf status) pct status sec lrd sd false
        ep bp (some u) nub ar nubr, ?_, ?_⟩
      · exact update_progress_okEnv book_id pct status sec lrd sd false
          edition_id ep bp (some u) nub ar nubr b_id e_id hb he
      · exact okRun_count_urr b_id e_id (statusIdOf status) pct status sec lrd
          sd false ep bp (some u) nub ar nubr hsk

/-- Witness for C3 at a concrete skip input: target page 50 against remote
page 50, seconds 90 against 100, matching status, edition and dates. -/
theorem C3_drift_tolerance_witness :
    update_progress "1" 50 "reading" 100 none none false none
      (okEnv none (some (some 100))
        (some ⟨7, some 2, none, some ⟨5, some 50, some 90, none, none⟩⟩)
        0 none 0) = .ok (true, []) := by
  have ht : targetPage (some 100) 50 = 50 := by
    have hq : ((100 : Int) : ℚ) * 50 / 100 = 50 := by norm_num
    simp [targetPage, pyTrunc, hq]
  exact (C3_drift_tolerance "1" 50 "reading" 100 none none none none
    (some (some 100)) ⟨7, some 2, none, some ⟨5, some 50, some 90, none, none⟩⟩
    ⟨5, some 50, some 90, none, none⟩ 0 none 0 1 none (some 100) 50 90
    (by decide) rfl rfl (by decide) (Or.inl rfl) rfl rfl rfl rfl
    (fun hcon => absurd hcon (by decide))).1
    ⟨by rw [ht]; simp, by decide⟩

/-- C4 amended: when the latest read record's progress_seconds is absent,
the drift comparator's seconds rule fails — `current_seconds is not None`
guards the `or 0` fallback, which is therefore unreachable — so even with
every other skip rule satisfied and the local elapsed seconds below 60, the
reconciliation does not skip: it issues the UpdateReadRecord mutation. -/
theorem C4_absent_seconds
    (book_id : String) (pct : ℚ) (status : String) (sec : Int)
    (lrd sd : Option Date) (edition_id : Option String)
    (ep bp : Option (Option Int)) (u : UserBook) (rr : ReadRecord)
    (nub : Int) (ar : Option Int) (nubr : Int) (b_id : Int)
    (e_id : Option Int) (tp : Option Int) (pp : Int)
    (hb : pyParseInt book_id = some b_id)
    (he : parseEdition edition_id = .ok e_id)
    (hres : resolveTotalPages e_id (okEnv ep bp (some u) nub ar nubr) = .ok tp)
    (hst : u.status_id = some (statusIdOf status))
    (hed : e_id = none ∨ u.edition_id = e_id)
    (hlr : u.latest_read = some rr)
    (hpp : rr.progress_pages = some pp)
    (hppm : |pp - targetPage tp pct| ≤ 1)
    (hssn : rr.progress_seconds = none)
    (hsd : rr.started_at = sd.map Date.fmt)
    (hfd : status = "finished" → rr.finished_at = lrd.map Date.fmt)
    (hsec0 : 0 ≤ sec) (hsec : sec < 60) :
    ∃ muts, update_progress book_id pct status sec lrd sd false edition_id
      (okEnv ep bp (some u) nub ar nubr) = .ok (true, muts) ∧
      muts ≠ [] ∧ 1 ≤ countMut isUpdateReadRecord muts := by
  by_cases hsk : shouldSkip false status (statusIdOf status) e_id sec lrd sd
      (targetPage (resolvedPages e_id ep bp) pct) (some u) = true
  · exfalso
    rw [shouldSkip_some_iff] at hsk
    obtain ⟨h0, h1, ⟨hs2a, hs2⟩, h4, h5⟩ := hsk
    rw [hlr] at hs2a
    simp [hssn] at hs2a
  · rw [Bool.not_eq_true] at hsk
    refine ⟨okRun b_id e_id (statusIdOf status) pct status sec lrd sd false
      ep bp (some u) nub ar nubr, ?_, ?_, ?_⟩
    · exact update_progress_okEnv book_id pct status sec lrd sd false
        edition_id ep bp (some u) nub ar nubr b_id e_id hb he
    · exact okRun_not_skip_ne_nil b_id e_id (statusIdOf status) pct status sec
        lrd sd false ep bp (some u) nub ar nubr hsk
    · exact okRun_count_urr b_id e_id (statusIdOf status) pct status sec lrd
        sd false ep bp (some u) nub ar nubr hsk

/-- Witness for C4 at a concrete input: absent progress_seconds, local
elapsed 30 seconds, all other rules matching — a write is issued. -/
theorem C4_absent_seconds_witness :
    ∃ muts, update_progress "1" 50 "reading" 30 none none false none
      (okEnv none (some (some 100))
        (some ⟨7, some 2, none, some ⟨5, some 50, none, none, none⟩⟩)
        0 none 0) = .ok (true, muts) ∧
      muts ≠ [] ∧ 1 ≤ countMut isUpdateReadRecord muts := by
  have ht : targetPage (some 100) 50 = 50 := by
    have hq : ((100 : Int) : ℚ) * 50 / 100 = 50 := by norm_num
    simp [targetPage, pyTrunc, hq]
  exact C4_absent_seconds "1" 50 "reading" 30 none none none none
    (some (some 100)) ⟨7, some 2, none, some ⟨5, some 50, none, none, none⟩⟩
    ⟨5, some 50, none, none, none⟩ 0 none 0 1 none (some 100) 50
    (by decide) rfl rfl (by decide) (Or.inl rfl) rfl rfl
    (by rw [ht]; simp) rfl rfl (fun hcon => absurd hcon (by decide))
    (by decide) (by decide)

/-- C4 counterexample: remote read record with null progress_seconds, local
elapsed 30 seconds, every other rule matching — the claim says all writes
are skipped, but the code issues an UpdateReadRecord mutation. -/
theorem C4_counterexample :
    update_progress "1" 50 "reading" 30 none none false none
      (okEnv none (some (some 100))
        (some ⟨7, some 2, none, some ⟨5, some 50, none, none, none⟩⟩)
        0 none 0) =
      .ok (true, [Mutation.updateReadRecord 5 (some 50) 30 none none]) ∧
    [Mutation.updateReadRecord 5 (some 50) 30 none none] ≠
      ([] : List Mutation) := by
  constructor
  · have hp : pyParseInt "1" = some 1 := by decide
    have ht : targetPage (some 100) 50 = 50 := by
      have hq : ((100 : Int) : ℚ) * 50 / 100 = 50 := by norm_num
      simp [targetPage, pyTrunc, hq]
    simp [update_progress, hp, parseEdition, statusIdOf, updateBody,
      resolveTotalPages, okEnv, oiTruthy, ht, shouldSkip, runMutations,
      finishMutations]
  · simp

/-- C5: in a non-skipped all-calls-succeed reconciliation with status
finished, percentage 99 and resolved total pages 100, every issued
UpdateReadRecord carries progress_pages 99 and finished_at equal to the
last read date formatted as YYYY-MM-DD (and one is issued whenever
anything is); with status reading, no reconciliation — under any remote
behaviour — ever puts a date into an UpdateReadRecord's finished_at. -/
theorem C5_status_date_semantics :
    (∀ (book_id : String) (sec : Int) (d : Date) (sd : Option Date)
      (edition_id : Option String) (ep bp : Option (Option Int))
      (ub : Option UserBook) (nub : Int) (ar : Option Int) (nubr : Int)
      (b_id : Int) (e_id : Option Int) (muts : List Mutation),
      pyParseInt book_id = some b_id → parseEdition edition_id = .ok e_id →
      resolveTotalPages e_id (okEnv ep bp ub nub ar nubr) = .ok (some 100) →
      update_progress book_id 99 "finished" sec (some d) sd false edition_id
        (okEnv ep bp ub nub ar nubr) = .ok (true, muts) →
      (∀ i pg s2 st fin, Mutation.updateReadRecord i pg s2 st fin ∈ muts →
        pg = some 99 ∧ fin = some (Date.fmt d)) ∧
      (muts ≠ [] → 1 ≤ countMut isUpdateReadRecord muts)) ∧
    (∀ (book_id : String) (pct : ℚ) (sec : Int) (lrd sd : Option Date)
      (force : Bool) (edition_id : Option String) (env : RemoteEnv) (b : Bool)
      (muts : List Mutation),
      update_progress book_id pct "reading" sec lrd sd force edition_id env =
        .ok (b, muts) →
      ∀ i pg s2 st fin, Mutation.updateReadRecord i pg s2 st fin ∈ muts →
        fin = none) := by
  constructor
  · intro book_id sec d sd edition_id ep bp ub nub ar nubr b_id e_id muts hb
      he hres h
    have h99 : targetPage (some 100) (99 : ℚ) = 99 := by
      have hq : ((100 : Int) : ℚ) * 99 / 100 = 99 := by norm_num
      simp [targetPage, pyTrunc, hq]
    rw [update_progress_okEnv book_id 99 "finished" sec (some d) sd false
      edition_id ep bp ub nub ar nubr b_id e_id hb he] at h
    simp only [Except.ok.injEq, Prod.mk.injEq, true_and] at h
    constructor
    · intro i pg s2 st fin hmem
      have hmem2 : Mutation.updateReadRecord i pg s2 st fin ∈
          mutsOf (updateBody b_id e_id (statusIdOf "finished") 99 "finished"
            sec (some d) sd false (okEnv ep bp ub nub ar nubr)) := by
        rw [updateBody_okEnv]
        rw [← h] at hmem
        simpa [mutsOf] using hmem
      obtain ⟨hs2, hfin, hpg⟩ := urr_mem_body b_id e_id
        (statusIdOf "finished") 99 "finished" sec (some d) sd false
        (okEnv ep bp ub nub ar nubr) i pg s2 st fin hmem2
      constructor
      · have hp := hpg (some 100) hres (by simp [oiTruthy])
        rw [hp, h99]
      · rw [hfin]
        simp
    · intro hne
      by_cases hskip : shouldSkip false "finished" (statusIdOf "finished")
          e_id sec (some d) sd (targetPage (resolvedPages e_id ep bp) 99)
          ub = true
      · exfalso
        apply hne
        rw [← h]
        exact okRun_skip b_id e_id (statusIdOf "finished") 99 "finished" sec
          (some d) sd false ep bp ub nub ar nubr hskip
      · rw [Bool.not_eq_true] at hskip
        rw [← h]
        exact okRun_count_urr b_id e_id (statusIdOf "finished") 99 "finished"
          sec (some d) sd false ep bp ub nub ar nubr hskip
  · intro book_id pct sec lrd sd force edition_id env b muts h i pg s2 st fin
      hmem
    cases hb : pyParseInt book_id with
    | none => simp [update_progress, hb] at h
    | some b_id =>
      cases he : parseEdition edition_id with
      | error e => simp [update_progress, hb, he] at h
      | ok e_id =>
        have hm := update_progress_muts book_id pct "reading" sec lrd sd force
          edition_id env b_id e_id b muts hb he h
        rw [hm] at hmem
        obtain ⟨hs2, hfin, hpg⟩ := urr_mem_body b_id e_id
          (statusIdOf "reading") pct "reading" sec lrd sd force env i pg s2 st
          fin hmem
        rw [hfin, if_neg (by decide)]

/-- Witness for C5 at a concrete input: finishing a 100-page book at 99
percent on 2023-02-01, fresh user-book, no auto-created read record. -/
theorem C5_status_date_semantics_witness :
    ∃ muts, update_progress "1" 99 "finished" 3600 (some ⟨2023, 2, 1⟩) none
        false none (okEnv none (some (some 100)) none 9 none 8) =
        .ok (true, muts) ∧
      (muts ≠ [] → 1 ≤ countMut isUpdateReadRecord muts) ∧
      (∀ i pg s2 st fin, Mutation.updateReadRecord i pg s2 st fin ∈ muts →
        pg = some 99 ∧ fin = some (Date.fmt ⟨2023, 2, 1⟩)) := by
  have hr := update_progress_okEnv "1" 99 "finished" 3600 (some ⟨2023, 2, 1⟩)
    none false none none (some (some 100)) none 9 none 8 1 none (by decide)
    rfl
  have hc := C5_status_date_semantics.1 "1" 3600 ⟨2023, 2, 1⟩ none none none
    (some (some 100)) none 9 none 8 1 none _ (by decide) rfl rfl hr
  exact ⟨_, hr, hc.2, hc.1⟩

lemma shouldSkip_post (status : String) (sid : Int) (e_id : Option Int)
    (sec : Int) (lrd sd : Option Date) (tgt : Int) (uid i : Int)
    (stv : Option String) (hst : stv = sd.map Date.fmt) :
    shouldSkip false status sid e_id sec lrd sd tgt
      (some ⟨uid, some sid, e_id, some ⟨i, some tgt, some sec, stv,
        if status = "finished" then lrd.map Date.fmt else none⟩⟩) = true := by
  rw [shouldSkip_some_iff]
  refine ⟨⟨rfl, rfl, Or.inr rfl⟩, ⟨?_, ?_⟩, ⟨?_, ?_⟩, ?_, ?_⟩
  · rfl
  · simp
  · rfl
  · simp
  · simpa using hst
  · intro hfin
    simp [hfin]

/-- C2 amended: a second update_progress call with unchanged local state
against the remote state that reflects exactly the first call's writes
issues zero mutations, provided total pages resolve to a positive count —
so the first call wrote the freshly computed target page — and the local
start date is present or the remote read record carried no started_at.
Outside these provisos idempotence fails (see the counterexample): with an
absent local start date the skip test compares the preserved remote
started_at against None, and with unresolved total pages the written page
may stay outside the tolerance around target page 0. -/
theorem C2_idempotence_amended
    (book_id : String) (pct : ℚ) (status : String) (sec : Int)
    (lrd sd : Option Date) (edition_id : Option String)
    (ep bp : Option (Option Int)) (ub0 : Option UserBook) (nub : Int)
    (ar : Option Int) (nubr : Int) (b_id : Int) (e_id : Option Int) (p : Int)
    (b1 : Bool) (muts : List Mutation)
    (hb : pyParseInt book_id = some b_id)
    (he : parseEdition edition_id = .ok e_id)
    (hres : resolveTotalPages e_id (okEnv ep bp ub0 nub ar nubr) =
      .ok (some p))
    (hp : 0 < p)
    (hstart : sd.isSome = true ∨
      (ub0.bind fun u => u.latest_read.bind fun r => r.started_at) = none)
    (h1 : update_progress book_id pct status sec lrd sd false edition_id
      (okEnv ep bp ub0 nub ar nubr) = .ok (b1, muts)) :
    update_progress book_id pct status sec lrd sd false edition_id
      (okEnv ep bp (applyMutations ub0 muts) nub ar nubr) =
      .ok (true, []) := by
  have htp : resolvedPages e_id ep bp = some p := by
    have h2 := resolveTotalPages_okEnv e_id ep bp ub0 nub ar nubr
    rw [hres] at h2
    injection h2 with h2
    exact h2.symm
  have htruthy : oiTruthy (resolvedPages e_id ep bp) = true := by
    rw [htp]
    simp only [oiTruthy, bne_iff_ne, ne_eq, decide_eq_true_eq]
    omega
  rw [update_progress_okEnv book_id pct status sec lrd sd false edition_id ep
    bp ub0 nub ar nubr b_id e_id hb he] at h1
  simp only [Except.ok.injEq, Prod.mk.injEq] at h1
  obtain ⟨hb1, hmuts⟩ := h1
  subst hmuts
  rw [update_progress_okEnv book_id pct status sec lrd sd false edition_id ep
    bp _ nub ar nubr b_id e_id hb he]
  suffices hsk2 : shouldSkip false status (statusIdOf status) e_id sec lrd sd
      (targetPage (resolvedPages e_id ep bp) pct)
      (applyMutations ub0 (okRun b_id e_id (statusIdOf status) pct status sec
        lrd sd false ep bp ub0 nub ar nubr)) = true by
    rw [okRun_skip b_id e_id (statusIdOf status) pct status sec lrd sd false
      ep bp _ nub ar nubr hsk2]
  by_cases hskip1 : shouldSkip false status (statusIdOf status) e_id sec lrd
      sd (targetPage (resolvedPages e_id ep bp) pct) ub0 = true
  · rw [okRun_skip b_id e_id (statusIdOf status) pct status sec lrd sd false
      ep bp ub0 nub ar nubr hskip1]
    simpa [applyMutations] using hskip1
  · rw [Bool.not_eq_true] at hskip1
    cases ub0 with
    | none =>
      by_cases har : oiTruthy ar = true
      · have hrun : okRun b_id e_id (statusIdOf status) pct status sec lrd sd
            false ep bp none nub ar nubr =
            [Mutation.createUserBook b_id (statusIdOf status) e_id,
             Mutation.updateReadRecord (ar.getD 0)
               (some (targetPage (resolvedPages e_id ep bp) pct)) sec
               (sd.map Date.fmt)
               (if status = "finished" then lrd.map Date.fmt else none)] := by
          unfold okRun
          simp [hskip1, htruthy, har]
        rw [hrun]
        simp only [applyMutations, List.foldl_cons, List.foldl_nil,
          applyMutation]
        exact shouldSkip_post status (statusIdOf status) e_id sec lrd sd
          (targetPage (resolvedPages e_id ep bp) pct) 0 (ar.getD 0)
          (sd.map Date.fmt) rfl
      · have hrun : okRun b_id e_id (statusIdOf status) pct status sec lrd sd
            false ep bp none nub ar nubr =
            [Mutation.createUserBook b_id (statusIdOf status) e_id,
             Mutation.createReadRecord nub,
             Mutation.updateReadRecord nubr
               (some (targetPage (resolvedPages e_id ep bp) pct)) sec
               (sd.map Date.fmt)
               (if status = "finished" then lrd.map Date.fmt else none)] := by
          unfold okRun
          simp [hskip1, htruthy, har]
        rw [hrun]
        simp only [applyMutations, List.foldl_cons, List.foldl_nil,
          applyMutation]
        exact shouldSkip_post status (statusIdOf status) e_id sec lrd sd
          (targetPage (resolvedPages e_id ep bp) pct) 0 nubr
          (sd.map Date.fmt) rfl
    | some u =>
      obtain ⟨uid, ust, ued, ulr⟩ := u
      cases ulr with
      | some rr =>
        have hstv : startedPayload sd rr.started_at = sd.map Date.fmt := by
          cases sd with
          | some dd => simp [startedPayload]
          | none =>
            have hstn : rr.started_at = none := by
              rcases hstart with hs | hs
              · simp at hs
              · simpa using hs
            simp [startedPayload, hstn]
        by_cases hid : rr.id = 0
        · by_cases hc : ust ≠ some (statusIdOf status) ∨ ued ≠ e_id
          · have hrun := okRun_existing_zero b_id e_id (statusIdOf status)
              pct status sec lrd sd false ep bp nub ar nubr
              ⟨uid, ust, ued, some rr⟩ rr hskip1 rfl hid
            rw [if_pos hc] at hrun
            simp [htruthy] at hrun
            rw [hrun]
            simp only [applyMutations, List.foldl_cons, List.foldl_nil,
              applyMutation]
            exact shouldSkip_post status (statusIdOf status) e_id sec lrd sd
              (targetPage (resolvedPages e_id ep bp) pct) uid nubr
              (startedPayload sd rr.started_at) hstv
          · push_neg at hc
            obtain ⟨hc1, hc2⟩ := hc
            subst hc1
            subst hc2
            have hrun := okRun_existing_zero b_id ued (statusIdOf status)
              pct status sec lrd sd false ep bp nub ar nubr
              ⟨uid, some (statusIdOf status), ued, some rr⟩ rr hskip1 rfl hid
            simp [htruthy] at hrun
            rw [hrun]
            simp only [applyMutations, List.foldl_cons, List.foldl_nil,
              applyMutation]
            exact shouldSkip_post status (statusIdOf status) ued sec lrd sd
              (targetPage (resolvedPages ued ep bp) pct) uid nubr
              (startedPayload sd rr.started_at) hstv
        · by_cases hc : ust ≠ some (statusIdOf status) ∨ ued ≠ e_id
          · have hrun := okRun_existing b_id e_id (statusIdOf status) pct
              status sec lrd sd false ep bp nub ar nubr
              ⟨uid, ust, ued, some rr⟩ rr hskip1 rfl hid
            rw [if_pos hc] at hrun
            simp [htruthy] at hrun
            rw [hrun]
            simp only [applyMutations, List.foldl_cons, List.foldl_nil,
              applyMutation]
            exact shouldSkip_post status (statusIdOf status) e_id sec lrd sd
              (targetPage (resolvedPages e_id ep bp) pct) uid rr.id
              (startedPayload sd rr.started_at) hstv
          · push_neg at hc
            obtain ⟨hc1, hc2⟩ := hc
            subst hc1
            subst hc2
            have hrun := okRun_existing b_id ued (statusIdOf status) pct
              status sec lrd sd false ep bp nub ar nubr
              ⟨uid, some (statusIdOf status), ued, some rr⟩ rr hskip1 rfl hid
            simp [htruthy] at hrun
            rw [hrun]
            simp only [applyMutations, List.foldl_cons, List.foldl_nil,
              applyMutation]
            exact shouldSkip_post status (statusIdOf status) ued sec lrd sd
              (targetPage (resolvedPages ued ep bp) pct) uid rr.id
              (startedPayload sd rr.started_at) hstv
      | none =>
        by_cases hc : ust ≠ some (statusIdOf status) ∨ ued ≠ e_id
        · have hrun : okRun b_id e_id (statusIdOf status) pct status sec lrd
              sd false ep bp (some ⟨uid, ust, ued, none⟩) nub ar nubr =
              [Mutation.createReadRecord uid,
               Mutation.updateReadRecord nubr
                 (some (targetPage (resolvedPages e_id ep bp) pct)) sec
                 (sd.map Date.fmt)
                 (if status = "finished" then lrd.map Date.fmt else none),
               Mutation.updateUserBook uid (statusIdOf status) e_id] := by
            unfold okRun
            cases sd <;> simp [hskip1, htruthy, hc, oiTruthy_none]
          rw [hrun]
          simp only [applyMutations, List.foldl_cons, List.foldl_nil,
            applyMutation]
          exact shouldSkip_post status (statusIdOf status) e_id sec lrd sd
            (targetPage (resolvedPages e_id ep bp) pct) uid nubr
            (sd.map Date.fmt) rfl
        · push_neg at hc
          obtain ⟨hc1, hc2⟩ := hc
          subst hc1
          subst hc2
          have hrun : okRun b_id ued (statusIdOf status) pct status sec lrd
              sd false ep bp (some ⟨uid, some (statusIdOf status), ued, none⟩)
              nub ar nubr =
              [Mutation.createReadRecord uid,
               Mutation.updateReadRecord nubr
                 (some (targetPage (resolvedPages ued ep bp) pct)) sec
                 (sd.map Date.fmt)
                 (if status = "finished" then lrd.map Date.fmt else none)] := by
            unfold okRun
            cases sd <;> simp [hskip1, htruthy, oiTruthy_none]
          rw [hrun]
          simp only [applyMutations, List.foldl_cons, List.foldl_nil,
            applyMutation]
          exact shouldSkip_post status (statusIdOf status) ued sec lrd sd
            (targetPage (resolvedPages ued ep bp) pct) uid nubr
            (sd.map Date.fmt) rfl

/-- Witness for C2 at a concrete input: seconds drifted by 100, matching
start date present; the first call writes, the second call against the
written state issues nothing. -/
theorem C2_idempotence_amended_witness :
    ∃ muts, update_progress "1" 10 "reading" 100 none (some ⟨2023, 1, 1⟩)
        false none (okEnv none (some (some 100))
          (some ⟨1, some 2, none,
            some ⟨5, some 10, some 0, some (Date.fmt ⟨2023, 1, 1⟩), none⟩⟩)
          0 none 0) = .ok (true, muts) ∧
      update_progress "1" 10 "reading" 100 none (some ⟨2023, 1, 1⟩) false none
        (okEnv none (some (some 100))
          (applyMutations
            (some ⟨1, some 2, none,
              some ⟨5, some 10, some 0, some (Date.fmt ⟨2023, 1, 1⟩), none⟩⟩)
            muts)
          0 none 0) = .ok (true, []) := by
  have hr := update_progress_okEnv "1" 10 "reading" 100 none
    (some ⟨2023, 1, 1⟩) false none none (some (some 100))
    (some ⟨1, some 2, none,
      some ⟨5, some 10, some 0, some (Date.fmt ⟨2023, 1, 1⟩), none⟩⟩)
    0 none 0 1 none (by decide) rfl
  exact ⟨_, hr, C2_idempotence_amended "1" 10 "reading" 100 none
    (some ⟨2023, 1, 1⟩) none none (some (some 100))
    (some ⟨1, some 2, none,
      some ⟨5, some 10, some 0, some (Date.fmt ⟨2023, 1, 1⟩), none⟩⟩)
    0 none 0 1 none 100 true _ (by decide) rfl rfl (by decide) (Or.inl rfl)
    hr⟩

/-- C2 counterexample: local start date absent while the remote read record
retains started_at "2023-01-01", seconds drifted by 100.  The first call
succeeds and writes (preserving the remote started_at); against the remote
state holding exactly those writes, the second identical call writes again
instead of issuing zero mutations — the skip test compares the preserved
started_at against None. -/
theorem C2_counterexample :
    update_progress "1" 10 "reading" 100 none none false none
      (okEnv none (some (some 100))
        (some ⟨1, some 2, none,
          some ⟨5, some 10, some 0, some "2023-01-01", none⟩⟩) 0 none 0) =
      .ok (true,
        [Mutation.updateReadRecord 5 (some 10) 100 (some "2023-01-01")
          none]) ∧
    applyMutations
        (some ⟨1, some 2, none,
          some ⟨5, some 10, some 0, some "2023-01-01", none⟩⟩)
        [Mutation.updateReadRecord 5 (some 10) 100 (some "2023-01-01") none] =
      some ⟨1, some 2, none,
        some ⟨5, some 10, some 100, some "2023-01-01", none⟩⟩ ∧
    update_progress "1" 10 "reading" 100 none none false none
      (okEnv none (some (some 100))
        (some ⟨1, some 2, none,
          some ⟨5, some 10, some 100, some "2023-01-01", none⟩⟩) 0 none 0) =
      .ok (true,
        [Mutation.updateReadRecord 5 (some 10) 100 (some "2023-01-01")
          none]) ∧
    [Mutation.updateReadRecord 5 (some 10) 100 (some "2023-01-01") none] ≠
      ([] : List Mutation) := by
  have hp : pyParseInt "1" = some 1 := by decide
  have ht : targetPage (some 100) 10 = 10 := by
    have hq : ((100 : Int) : ℚ) * 10 / 100 = 10 := by norm_num
    simp [targetPage, pyTrunc, hq]
  refine ⟨?_, ?_, ?_, by simp⟩
  · simp [update_progress, hp, parseEdition, statusIdOf, updateBody,
      resolveTotalPages, okEnv, oiTruthy, ht, shouldSkip, runMutations,
      finishMutations]
  · simp [applyMutations, applyMutation]
  · simp [update_progress, hp, parseEdition, statusIdOf, updateBody,
      resolveTotalPages, okEnv, oiTruthy, ht, shouldSkip, runMutations,
      finishMutations]

end KoreaderToHardcover
